import Mathlib

/-
Shallow embedding of the SEO audit engine (src/audit_engine.py, function
run_seo_audit) of the lola-backend repository, together with proofs that
settle the frozen claims about it.

Modelling conventions:
* Machine strings are Lean `String`s; the Python `in`, `str.replace`,
  `str.split()`, `str.lower()`, `str.strip()` are re-implemented below with
  the same observable behaviour on the ASCII texts the checks handle.
* The parsed document (BeautifulSoup) is represented by a `FetchedPage`
  record holding exactly the quantities the engine reads from the soup:
  the resolved URL, its network location (urlparse(response.url).netloc),
  the title element and its direct string content, the description meta
  tag and its content attribute, tag counts, byte size, elapsed time, the
  extracted text and the raw decoded text.
* Wall-clock load time is an exact rational (Python compares the float
  against 3; no claim depends on float rounding of the measured duration).
* The two auxiliary probes are values of `ProbeResult` (an HTTP status, or
  a raised transport exception).
* The primary fetch is a `FetchOutcome`; a failure carries the exception
  message and the engine re-raises it wrapped, modelled with `Except`.
-/

/-- Python `needle in hay` on strings: some tail of `hay` starts with `needle`. -/
def strOccurs (needle hay : String) : Bool :=
  hay.data.tails.any (fun t => needle.data.isPrefixOf t)

/-- Python `str.replace(pat, rep)` on character lists: replace every
non-overlapping occurrence of `pat`, scanning left to right.  (The engine
only calls it with the non-empty pattern "www.".) -/
def replaceListAux (pat rep : List Char) : Nat → List Char → List Char
  | 0, s => s
  | _ + 1, [] => []
  | fuel + 1, c :: rest =>
    if pat ≠ [] ∧ pat.isPrefixOf (c :: rest) then
      rep ++ replaceListAux pat rep fuel (rest.drop (pat.length - 1))
    else
      c :: replaceListAux pat rep fuel rest

/-- The scan itself; the fuel s.length suffices because every step of the
worker consumes at least one character of the input. -/
def replaceList (pat rep : List Char) (s : List Char) : List Char :=
  replaceListAux pat rep s.length s

/-- Python `s.replace(pat, rep)` on strings. -/
def pyReplace (s pat rep : String) : String := ⟨replaceList pat.data rep.data s.data⟩

/-- Python `s.startswith(p)`, over characters. -/
def strStartsWith (s p : String) : Bool := p.data.isPrefixOf s.data

/-- Python `s.lower()`: ASCII case mapping (the checks compare ASCII
needles, on which the full Unicode lowering of Python agrees). -/
def strLower (s : String) : String := ⟨s.data.map Char.toLower⟩

/-- Python `s.strip()`: drop leading and trailing whitespace. -/
def strTrim (s : String) : String :=
  ⟨((s.data.dropWhile Char.isWhitespace).reverse.dropWhile Char.isWhitespace).reverse⟩

/-- Python `s.split()` accumulator: gather the maximal nonblank runs (the
first argument is the input, the second the current run, reversed). -/
def wordsAux : List Char → List Char → List (List Char)
  | [], acc => if acc.isEmpty then [] else [acc.reverse]
  | c :: rest, acc =>
    if c.isWhitespace then
      (if acc.isEmpty then [] else [acc.reverse]) ++ wordsAux rest []
    else wordsAux rest (c :: acc)

/-- Python `s.split()`: whitespace-separated words, empty pieces dropped. -/
def pyWords (s : String) : List String := (wordsAux s.data []).map (fun l => ⟨l⟩)

/-- `len(text.split())` of the page text. -/
def wordCount (s : String) : Nat := (pyWords s).length

/-- Characters matched by the regex class `[-.\s]` in the phone pattern. -/
def isSepChar (c : Char) : Bool :=
  c = '-' || c = '.' || c = ' ' || c = '\t' || c = '\n' || c = '\r' ||
  c = '\x0b' || c = '\x0c'

/-- Consume exactly `n` regex `\d` digits, returning the remaining input. -/
def takeDigits : Nat → List Char → Option (List Char)
  | 0, cs => some cs
  | _ + 1, [] => none
  | n + 1, c :: cs => if c.isDigit then takeDigits n cs else none

/-- Match an optional single character satisfying `p`, then continue with `k`
(both alternatives of the regex `?` quantifier are tried). -/
def optConsume (p : Char → Bool) (cs : List Char) (k : List Char → Bool) : Bool :=
  k cs ||
  (match cs with
   | [] => false
   | c :: rest => p c && k rest)

/-- The source regex for a phone number matched at the start of the input:
optional open paren, 3 digits, optional close paren, optional separator,
3 digits, an (independently) optional separator, 4 digits. -/
def phoneMatchAt (cs : List Char) : Bool :=
  optConsume (fun c => c = '(') cs fun cs1 =>
    match takeDigits 3 cs1 with
    | none => false
    | some cs2 =>
      optConsume (fun c => c = ')') cs2 fun cs3 =>
        optConsume isSepChar cs3 fun cs4 =>
          match takeDigits 3 cs4 with
          | none => false
          | some cs5 =>
            optConsume isSepChar cs5 fun cs6 => (takeDigits 4 cs6).isSome

/-- `re.search(phone_pattern, text)` succeeds: the pattern matches at some
position of the text. -/
def hasPhone (s : String) : Bool := s.data.tails.any phoneMatchAt

/-- Separator characters as the claim wording lists them. -/
def claimSepChar (c : Char) : Bool := c = '-' || c = '.' || c = ' '

/-- Modelled from the claim wording for check 20 (refinement comparison
only, not from the source): optional open paren, 3 digits, optional close
paren, optional separator from claimSepChar, 3 digits, then THE SAME
separator again (absent when the first was absent), 4 digits. -/
def claimPhoneMatchAt (cs : List Char) : Bool :=
  optConsume (fun c => c = '(') cs fun cs1 =>
    match takeDigits 3 cs1 with
    | none => false
    | some cs2 =>
      optConsume (fun c => c = ')') cs2 fun cs3 =>
        ((match takeDigits 3 cs3 with
          | some cs4 => (takeDigits 4 cs4).isSome
          | none => false)
         ||
         (match cs3 with
          | [] => false
          | c :: rest =>
            claimSepChar c &&
            (match takeDigits 3 rest with
             | some cs4 =>
               (match cs4 with
                | c2 :: rest2 => c2 = c && (takeDigits 4 rest2).isSome
                | [] => false)
             | none => false)))

/-- Search version of the claim-worded phone pattern. -/
def claimHasPhone (s : String) : Bool := s.data.tails.any claimPhoneMatchAt

/-- One detected issue, as the engine appends it (a Python dict with the
four keys category, issue, impact, fix). -/
structure Finding where
  category : String
  issue : String
  impact : String
  fix : String
deriving DecidableEq

/-- Everything run_seo_audit reads from the primary response and the parsed
soup.  `titleTag`/`metaDesc`: outer `none` = element absent, inner option =
the direct string content / content attribute (absent attribute folded to
the Python default).  `netloc` stands for urlparse(resolvedUrl).netloc. -/
structure FetchedPage where
  resolvedUrl : String
  netloc : String
  titleTag : Option (Option String)
  metaDesc : Option (Option String)
  h1Count : Nat
  canonicalPresent : Bool
  robotsMeta : Option String
  ogCount : Nat
  schemaScriptCount : Nat
  contentBytes : Nat
  loadTime : ℚ
  internalLinkCount : Nat
  textContent : String
  htmlText : String
deriving DecidableEq

/-- Outcome of one auxiliary probe (sitemap.xml / robots.txt): an HTTP
status, or a raised transport exception caught by the bare except. -/
inductive ProbeResult where
  | ok (status : Nat)
  | exn
deriving DecidableEq

/-- Outcome of the primary page fetch. -/
inductive FetchOutcome where
  | success (pg : FetchedPage)
  | failure (msg : String)
deriving DecidableEq

/- Finding templates, one per check, with the exact source strings
(f-string holes become explicit appends, right-associated). -/

def fSsl : Finding :=
  { category := "Technical", issue := "Site not using HTTPS", impact := "High",
    fix := "Install SSL certificate and redirect all HTTP traffic to HTTPS" }

def fWww : Finding :=
  { category := "Technical", issue := "Inconsistent WWW usage", impact := "Low",
    fix := "Choose either www or non-www and redirect the other consistently" }

def fTitleMissing : Finding :=
  { category := "On-Page", issue := "Missing title tag", impact := "High",
    fix := "Add a descriptive title tag (50-60 characters) including main keyword and location" }

def fTitleShort (n : Nat) : Finding :=
  { category := "On-Page",
    issue := "Title tag too short (" ++ (toString n ++ " chars)"), impact := "Medium",
    fix := "Expand title to 50-60 characters with location and service keywords" }

def fTitleLong (n : Nat) : Finding :=
  { category := "On-Page",
    issue := "Title tag too long (" ++ (toString n ++ " chars)"), impact := "Low",
    fix := "Shorten title to under 60 characters to avoid truncation in search results" }

def fMetaMissing : Finding :=
  { category := "On-Page", issue := "Missing meta description", impact := "Medium",
    fix := "Add meta description (150-160 characters) highlighting services and location" }

def fMetaShort (n : Nat) : Finding :=
  { category := "On-Page",
    issue := "Meta description too short (" ++ (toString n ++ " chars)"), impact := "Low",
    fix := "Expand to 150-160 characters for better click-through rates" }

def fMetaLong (n : Nat) : Finding :=
  { category := "On-Page",
    issue := "Meta description too long (" ++ (toString n ++ " chars)"), impact := "Low",
    fix := "Shorten to 150-160 characters to avoid truncation" }

def fH1Missing : Finding :=
  { category := "On-Page", issue := "No H1 heading found", impact := "High",
    fix := "Add one clear H1 tag describing your main service and location" }

def fH1Multi (n : Nat) : Finding :=
  { category := "On-Page",
    issue := "Multiple H1 tags found (" ++ (toString n ++ ")"), impact := "Low",
    fix := "Use only one H1 per page for main heading" }

def fCanonical : Finding :=
  { category := "Technical", issue := "Missing canonical tag", impact := "Medium",
    fix := "Add canonical tag to prevent duplicate content issues" }

def fNoindex : Finding :=
  { category := "Technical", issue := "Page set to NOINDEX - blocking search engines",
    impact := "High",
    fix := "Remove \x27noindex\x27 from robots meta tag immediately" }

def fOg : Finding :=
  { category := "On-Page", issue := "Incomplete Open Graph tags for social sharing",
    impact := "Low",
    fix := "Add og:title, og:description, og:image for better social media sharing" }

def fSchema : Finding :=
  { category := "Technical", issue := "No structured data (Schema.org) found",
    impact := "Medium",
    fix := "Add LocalBusiness schema markup for better local search visibility" }

/-- Python displays the page size as an f-string `{page_size_kb:.0f}`; the
displayed integer is modelled as rounding bytes/1024 to the nearest whole
KB (the half-to-even tie case differs at most in the final displayed digit
and no claim touches this text). -/
def pageSizeDisplayKB (bytes : Nat) : Nat := (bytes + 512) / 1024

def fLargePage (bytes : Nat) : Finding :=
  { category := "Technical",
    issue := "Large page size (" ++ (toString (pageSizeDisplayKB bytes) ++ " KB)"),
    impact := "Medium",
    fix := "Optimize images and minimize CSS/JS to improve load speed" }

/-- Stand-in for the f-string display `{load_time:.1f}` (no claim touches
this text). -/
def ratDisplay (q : ℚ) : String := toString q

def fSlowLoad (q : ℚ) : Finding :=
  { category := "Technical",
    issue := "Slow page load (" ++ (ratDisplay q ++ " seconds)"), impact := "Medium",
    fix := "Improve server response time and enable caching" }

def fFewLinks (n : Nat) : Finding :=
  { category := "On-Page",
    issue := "Few internal links (" ++ (toString n ++ ")"), impact := "Low",
    fix := "Add more internal links to improve site navigation and SEO" }

def fThin (n : Nat) : Finding :=
  { category := "Content",
    issue := "Thin content (" ++ (toString n ++ " words)"), impact := "High",
    fix := "Add more descriptive content (aim for 500+ words) about services, process, and benefits" }

def fLimited (n : Nat) : Finding :=
  { category := "Content",
    issue := "Limited content (" ++ (toString n ++ " words)"), impact := "Medium",
    fix := "Add more content about services, benefits, and unique value proposition" }

def fLocation (location : String) : Finding :=
  { category := "Local SEO",
    issue := "Location \x27" ++ (location ++ "\x27 not mentioned on homepage"),
    impact := "High",
    fix := "Add \x27" ++ (location ++ "\x27 to title, headings, and content for local SEO") }

def fNoPhone : Finding :=
  { category := "Local SEO", issue := "No phone number detected on homepage",
    impact := "Medium",
    fix := "Add visible phone number in header/footer for local trust signals" }

def fNoGbp : Finding :=
  { category := "Local SEO", issue := "No Google Business Profile link detected",
    impact := "Medium",
    fix := "Link to your Google Business Profile from homepage" }

def fKeywords (business_type : String) : Finding :=
  { category := "Content", issue := "Service keywords underutilized", impact := "Medium",
    fix := "Use \x27" ++ (business_type ++ "\x27 keywords more naturally throughout content") }

def fNoSitemap : Finding :=
  { category := "Technical", issue := "No sitemap.xml found", impact := "Medium",
    fix := "Create and submit XML sitemap to Google Search Console" }

def fSitemapInaccessible : Finding :=
  { category := "Technical", issue := "sitemap.xml not accessible", impact := "Medium",
    fix := "Create XML sitemap at /sitemap.xml" }

def fNoRobots : Finding :=
  { category := "Technical", issue := "No robots.txt found", impact := "Low",
    fix := "Create robots.txt file to guide search engine crawlers" }

/- Check conditions, in source order.  Each is the Python condition under
which the corresponding findings.append / score subtraction runs. -/

/-- Source line 9-10: bare domains get the https scheme prepended. -/
def normalizeWebsite (w : String) : String :=
  if strStartsWith w "http://" || strStartsWith w "https://" then w
  else "https://" ++ w

/-- Check 1: is_https = response.url.startswith("https://"). -/
def isHttps (pg : FetchedPage) : Bool := strStartsWith pg.resolvedUrl "https://"

/-- Check 2: parsed_url.netloc.startswith("www.") and
website.replace("www.", "") in website. -/
def wwwCond (website : String) (pg : FetchedPage) : Bool :=
  strStartsWith pg.netloc "www." && strOccurs (pyReplace website "www." "") website

/-- Check 3: not title or not title.string (absent element, absent direct
string, or empty string are all falsy). -/
def titleMissing (pg : FetchedPage) : Bool :=
  match pg.titleTag with
  | none => true
  | some none => true
  | some (some s) => s.isEmpty

/-- len(title.string.strip()) in the else branch (0 when that branch is
not reached; only used under the conditions below). -/
def titleLen (pg : FetchedPage) : Nat :=
  match pg.titleTag with
  | some (some s) => (strTrim s).length
  | _ => 0

/-- Check 4: title present and stripped length < 30. -/
def titleShortCond (pg : FetchedPage) : Bool := !titleMissing pg && titleLen pg < 30

/-- Check 5: title present and stripped length > 60. -/
def titleLongCond (pg : FetchedPage) : Bool := !titleMissing pg && titleLen pg > 60

/-- Check 6: not meta_desc or not meta_desc.get("content"). -/
def metaMissing (pg : FetchedPage) : Bool :=
  match pg.metaDesc with
  | none => true
  | some none => true
  | some (some s) => s.isEmpty

/-- len(meta_desc.get("content", "")) in the else branch. -/
def descLen (pg : FetchedPage) : Nat :=
  match pg.metaDesc with
  | some (some s) => s.length
  | _ => 0

/-- Check 7: description present and length < 120. -/
def descShortCond (pg : FetchedPage) : Bool := !metaMissing pg && descLen pg < 120

/-- Check 8: description present and length > 160. -/
def descLongCond (pg : FetchedPage) : Bool := !metaMissing pg && descLen pg > 160

/-- Check 9: not h1_tags. -/
def h1Zero (pg : FetchedPage) : Bool := pg.h1Count = 0

/-- Check 10: len(h1_tags) > 1. -/
def h1Multi (pg : FetchedPage) : Bool := pg.h1Count > 1

/-- Check 11: not canonical. -/
def canonicalMissing (pg : FetchedPage) : Bool := !pg.canonicalPresent

/-- Check 12: robots_meta present and "noindex" in content.lower(). -/
def noindexCond (pg : FetchedPage) : Bool :=
  match pg.robotsMeta with
  | none => false
  | some c => strOccurs "noindex" (strLower c)

/-- Check 13: len(og_tags) < 3. -/
def ogFew (pg : FetchedPage) : Bool := pg.ogCount < 3

/-- Check 14: not schema_scripts. -/
def schemaMissing (pg : FetchedPage) : Bool := pg.schemaScriptCount = 0

/-- Check 15: page_size_kb > 2000, i.e. len(response.content) > 2048000
(division by 1024 is exact in the float range involved). -/
def largePageCond (pg : FetchedPage) : Bool := pg.contentBytes > 2048000

/-- Check 16: load_time > 3. -/
def slowLoadCond (pg : FetchedPage) : Bool := pg.loadTime > 3

/-- Check 17: len(internal_links) < 5. -/
def fewLinksCond (pg : FetchedPage) : Bool := pg.internalLinkCount < 5

/-- word_count = len(soup.get_text().split()). -/
def pageWordCount (pg : FetchedPage) : Nat := wordCount pg.textContent

/-- Check 18 (High branch): word_count < 300. -/
def thinCond (pg : FetchedPage) : Bool := pageWordCount pg < 300

/-- Check 18 (Medium branch): 300 <= word_count < 500. -/
def limitedCond (pg : FetchedPage) : Bool :=
  !thinCond pg && pageWordCount pg < 500

/-- Check 19: location.lower() in html_text.lower(). -/
def locationMentioned (location : String) (pg : FetchedPage) : Bool :=
  strOccurs (strLower location) (strLower pg.htmlText)

/-- Check 20: re.search(phone_pattern, html_text). -/
def pageHasPhone (pg : FetchedPage) : Bool := hasPhone pg.htmlText

/-- Check 21: "google.com/maps" in html_text.lower() or "g.page" in it. -/
def hasGbpLink (pg : FetchedPage) : Bool :=
  strOccurs "google.com/maps" (strLower pg.htmlText) ||
  strOccurs "g.page" (strLower pg.htmlText)

/-- Check 22: keywords_found < len(business_keywords) / 2 with Python float
division, i.e. 2 * found < total. -/
def keywordsUnder (business_type : String) (pg : FetchedPage) : Bool :=
  2 * ((pyWords (strLower business_type)).filter
        (fun kw => strOccurs kw (strLower pg.htmlText))).length
    < (pyWords (strLower business_type)).length

/-- Check 23 first branch: probe returned and status != 200. -/
def probeNon200 (p : ProbeResult) : Bool :=
  match p with
  | .ok s => s ≠ 200
  | .exn => false

/-- Check 23 second branch: probe raised. -/
def probeExn (p : ProbeResult) : Bool :=
  match p with
  | .ok _ => false
  | .exn => true

/-- Predicate singling out the two sitemap findings (check 23). -/
def sitemapIssueP (f : Finding) : Bool :=
  decide (f = fNoSitemap) || decide (f = fSitemapInaccessible)

/-- A conditionally appended finding (one findings.append site). -/
def seg (c : Bool) (f : Finding) : List Finding := if c then [f] else []

/-- The findings list exactly as run_seo_audit accumulates it, in source
order, before the final impact sort. -/
def findingsList (website business_type location : String) (pg : FetchedPage)
    (sitemap robots : ProbeResult) : List Finding :=
  seg (!isHttps pg) fSsl ++
  seg (wwwCond website pg) fWww ++
  seg (titleMissing pg) fTitleMissing ++
  seg (titleShortCond pg) (fTitleShort (titleLen pg)) ++
  seg (titleLongCond pg) (fTitleLong (titleLen pg)) ++
  seg (metaMissing pg) fMetaMissing ++
  seg (descShortCond pg) (fMetaShort (descLen pg)) ++
  seg (descLongCond pg) (fMetaLong (descLen pg)) ++
  seg (h1Zero pg) fH1Missing ++
  seg (h1Multi pg) (fH1Multi pg.h1Count) ++
  seg (canonicalMissing pg) fCanonical ++
  seg (noindexCond pg) fNoindex ++
  seg (ogFew pg) fOg ++
  seg (schemaMissing pg) fSchema ++
  seg (largePageCond pg) (fLargePage pg.contentBytes) ++
  seg (slowLoadCond pg) (fSlowLoad pg.loadTime) ++
  seg (fewLinksCond pg) (fFewLinks pg.internalLinkCount) ++
  seg (thinCond pg) (fThin (pageWordCount pg)) ++
  seg (limitedCond pg) (fLimited (pageWordCount pg)) ++
  seg (!locationMentioned location pg) (fLocation location) ++
  seg (!pageHasPhone pg) fNoPhone ++
  seg (!hasGbpLink pg) fNoGbp ++
  seg (keywordsUnder business_type pg) (fKeywords business_type) ++
  seg (probeNon200 sitemap) fNoSitemap ++
  seg (probeExn sitemap) fSitemapInaccessible ++
  seg (probeNon200 robots) fNoRobots

/-- One score subtraction: the deduction applies when its check fired. -/
def ded (c : Bool) (n : Int) : Int := if c then n else 0

/-- scores["technical"] after all subtractions, before the final clamp. -/
def technicalRaw (website : String) (pg : FetchedPage)
    (sitemap robots : ProbeResult) : Int :=
  100 - ded (!isHttps pg) 15 - ded (wwwCond website pg) 3 -
    ded (canonicalMissing pg) 8 - ded (noindexCond pg) 25 -
    ded (schemaMissing pg) 12 - ded (largePageCond pg) 8 -
    ded (slowLoadCond pg) 10 - ded (probeNon200 sitemap) 10 -
    ded (probeExn sitemap) 10 - ded (probeNon200 robots) 5

/-- scores["on_page"] before the final clamp. -/
def onPageRaw (pg : FetchedPage) : Int :=
  100 - ded (titleMissing pg) 20 - ded (titleShortCond pg) 10 -
    ded (titleLongCond pg) 5 - ded (metaMissing pg) 10 -
    ded (descShortCond pg) 5 - ded (descLongCond pg) 3 -
    ded (h1Zero pg) 15 - ded (h1Multi pg) 5 - ded (ogFew pg) 5 -
    ded (fewLinksCond pg) 5

/-- scores["local"] before the final clamp. -/
def localRaw (location : String) (pg : FetchedPage) : Int :=
  100 - ded (!locationMentioned location pg) 20 - ded (!pageHasPhone pg) 15 -
    ded (!hasGbpLink pg) 10

/-- scores["content"] before the final clamp. -/
def contentRaw (business_type : String) (pg : FetchedPage) : Int :=
  100 - ded (thinCond pg) 20 - ded (limitedCond pg) 10 -
    ded (keywordsUnder business_type pg) 12

/-- The four named category scores (the scores dict). -/
structure ScoreCard where
  technical : Int
  on_page : Int
  localSeo : Int
  content : Int
deriving DecidableEq

/-- The scores dict after `scores[key] = max(0, scores[key])`.
(The source dict key of `localSeo` is "local", a Lean keyword.) -/
def clampedScores (website business_type location : String) (pg : FetchedPage)
    (sitemap robots : ProbeResult) : ScoreCard :=
  { technical := max 0 (technicalRaw website pg sitemap robots)
    on_page := max 0 (onPageRaw pg)
    localSeo := max 0 (localRaw location pg)
    content := max 0 (contentRaw business_type pg) }

/-- avg_score = sum(scores.values()) / len(scores), exact as a rational
(the Python float quotient of an integer at most 400 by 4 is exact;
written with mkRat, which meanScore_eq_div below proves equal to the
rational quotient sum / 4). -/
def meanScore (sc : ScoreCard) : ℚ :=
  mkRat (sc.technical + sc.on_page + sc.localSeo + sc.content) 4

/-- The four narrative summary templates; the source interpolates the
display-rounded average into a fixed sentence per tier, so the tier is the
whole observable branch choice. -/
inductive SummaryTier where
  | great
  | good
  | quickFixes
  | needsAttention
deriving DecidableEq

/-- The if/elif ladder selecting the summary sentence. -/
def summaryTier (m : ℚ) : SummaryTier :=
  if m ≥ 80 then .great
  else if m ≥ 60 then .good
  else if m ≥ 40 then .quickFixes
  else .needsAttention

/- Quick wins: the eight append sites inside the checks, in source order,
then the backfill block, then the [:5] cap. -/

def qwSsl : String := "Install SSL certificate (HTTPS) - critical for trust and rankings"

def qwTitle (business_type location : String) : String :=
  "Add title tag like \x27" ++
    (business_type ++ (" in " ++ (location ++ " | Your Business Name\x27")))

def qwMeta : String := "Add meta description mentioning your services and location"

def qwH1 (business_type location : String) : String :=
  "Add H1 heading like \x27" ++
    (business_type ++ (" Services in " ++ (location ++ "\x27")))

def qwNoindex : String := "Remove NOINDEX tag - your site is currently hidden from Google!"

def qwSchema : String := "Add LocalBusiness schema for Google Business Profile integration"

def qwThin : String := "Expand homepage content to at least 500 words with service details"

def qwLoc (location : String) : String :=
  "Add \x27" ++ (location ++ "\x27 to your homepage title and content")

def bfLoc (location : String) : String :=
  "Add \x27" ++ (location ++ "\x27 to homepage title and content")

def bfWords : String := "Expand homepage to 500+ words"

def bfPhone : String := "Add phone number to header/footer"

/-- One conditionally appended quick win. -/
def qseg (c : Bool) (s : String) : List String := if c then [s] else []

/-- The quick wins accumulated by the checks themselves (before the
backfill block), in source order. -/
def quickWinsChecks (business_type location : String) (pg : FetchedPage) : List String :=
  qseg (!isHttps pg) qwSsl ++
  qseg (titleMissing pg) (qwTitle business_type location) ++
  qseg (metaMissing pg) qwMeta ++
  qseg (h1Zero pg) (qwH1 business_type location) ++
  qseg (noindexCond pg) qwNoindex ++
  qseg (schemaMissing pg) qwSchema ++
  qseg (thinCond pg) qwThin ++
  qseg (!locationMentioned location pg) (qwLoc location)

/-- The backfill block: if len(quick_wins) < 3, append the three fallback
suggestions whose conditions hold, in fixed order. -/
def quickWinsWithBackfill (business_type location : String) (pg : FetchedPage) : List String :=
  if (quickWinsChecks business_type location pg).length < 3 then
    quickWinsChecks business_type location pg ++
    (qseg (!locationMentioned location pg) (bfLoc location) ++
     qseg (pageWordCount pg < 500) bfWords ++
     qseg (!pageHasPhone pg) bfPhone)
  else quickWinsChecks business_type location pg

/-- quick_wins[:5], the returned list. -/
def quickWinsFinal (business_type location : String) (pg : FetchedPage) : List String :=
  (quickWinsWithBackfill business_type location pg).take 5

/-- Python sorted(findings, key=impact rank) with a 3-valued key and a
stable sort: the High group, then the Medium group, then the Low group,
each in original order. -/
def sortFindings (l : List Finding) : List Finding :=
  l.filter (fun f => f.impact == "High") ++
  l.filter (fun f => f.impact == "Medium") ++
  l.filter (fun f => f.impact == "Low")

def week1Canned : String := "Week 1: Create Google Business Profile and verify location"

def week2Canned : String :=
  "Week 2: Build 5 local citations (Yelp, Facebook, industry directories)"

def week3Task (business_type location : String) : String :=
  "Week 3: Create 2-3 service pages targeting \x27" ++
    (business_type ++ ("\x27 + \x27" ++ (location ++ "\x27 keywords")))

def week4Task : String := "Week 4: Get 3-5 customer reviews on Google Business Profile"

/-- Week 1/2 entry built from up to the first two findings of a tier. -/
def weekEntry (weekLabel : String) (fs : List Finding) : String :=
  weekLabel ++ String.intercalate "; " ((fs.take 2).map (fun f => "Fix: " ++ f.issue))

/-- The 30-day plan, built from the unsorted findings list. -/
def thirtyDayPlan (business_type location : String) (findings : List Finding) : List String :=
  (if (findings.filter (fun f => f.impact == "High")).isEmpty then week1Canned
   else weekEntry "Week 1: " (findings.filter (fun f => f.impact == "High"))) ::
  (if (findings.filter (fun f => f.impact == "Medium")).isEmpty then week2Canned
   else weekEntry "Week 2: " (findings.filter (fun f => f.impact == "Medium"))) ::
  week3Task business_type location ::
  [week4Task]

def disclaimerText : String :=
  "This audit provides general SEO recommendations. Results may vary. For best results, implement fixes systematically and monitor progress in Google Search Console."

/-- The returned report dict. -/
structure Report where
  summary : SummaryTier
  scores : ScoreCard
  findings : List Finding
  quick_wins : List String
  thirty_day_plan : List String
  disclaimer : String
deriving DecidableEq

/-- The whole body of run_seo_audit after a successful primary fetch. -/
def auditPage (website business_type location : String) (pg : FetchedPage)
    (sitemap robots : ProbeResult) : Report :=
  { summary := summaryTier (meanScore (clampedScores website business_type location pg sitemap robots))
    scores := clampedScores website business_type location pg sitemap robots
    findings := sortFindings (findingsList website business_type location pg sitemap robots)
    quick_wins := quickWinsFinal business_type location pg
    thirty_day_plan :=
      thirtyDayPlan business_type location
        (findingsList website business_type location pg sitemap robots)
    disclaimer := disclaimerText }

/-- run_seo_audit: normalize the scheme, then either the audit body on a
successful fetch, or the wrapped single error
(`raise Exception(f"Failed to fetch website: ...")`) on a
requests.RequestException from the primary GET. -/
def run_seo_audit (website business_type location : String)
    (fetched : FetchOutcome) (sitemap robots : ProbeResult) : Except String Report :=
  let w := normalizeWebsite website
  match fetched with
  | .failure msg => .error ("Failed to fetch website: " ++ msg)
  | .success pg => .ok (auditPage w business_type location pg sitemap robots)

/- Concrete fetched pages used to evaluate the engine at specific inputs. -/

/-- A healthy page whose only quick-win producing defects are the missing
meta description and the thin text content. -/
def pageA : FetchedPage :=
  { resolvedUrl := "https://example.com", netloc := "example.com",
    titleTag := some (some "Austin Plumbing Experts You Can Trust!!"),
    metaDesc := none, h1Count := 1, canonicalPresent := true,
    robotsMeta := none, ogCount := 3, schemaScriptCount := 1,
    contentBytes := 100, loadTime := 1, internalLinkCount := 10,
    textContent := "short text",
    htmlText := "Austin 512-555-1234 google.com/maps" }

/-- A page whose redirects resolved onto the www host. -/
def pageB : FetchedPage :=
  { resolvedUrl := "https://www.foo.com", netloc := "www.foo.com",
    titleTag := none, metaDesc := none, h1Count := 0, canonicalPresent := false,
    robotsMeta := none, ogCount := 0, schemaScriptCount := 0,
    contentBytes := 0, loadTime := 0, internalLinkCount := 0,
    textContent := "", htmlText := "" }

/-- A page whose raw text holds a ten-digit number with two different
separators. -/
def pageC : FetchedPage :=
  { resolvedUrl := "https://example.com", netloc := "example.com",
    titleTag := none, metaDesc := none, h1Count := 0, canonicalPresent := false,
    robotsMeta := none, ogCount := 0, schemaScriptCount := 0,
    contentBytes := 0, loadTime := 0, internalLinkCount := 0,
    textContent := "", htmlText := "123-456.7890" }

/-- A page whose title element holds a non-empty, all-whitespace string. -/
def pageD : FetchedPage :=
  { resolvedUrl := "https://example.com", netloc := "example.com",
    titleTag := some (some "   "), metaDesc := none, h1Count := 0,
    canonicalPresent := false, robotsMeta := none, ogCount := 0,
    schemaScriptCount := 0, contentBytes := 0, loadTime := 0,
    internalLinkCount := 0, textContent := "", htmlText := "" }

/- Generic helper lemmas. -/

theorem data_take_append (a r : String) (n : Nat) (h : n ≤ a.data.length) :
    (a ++ r).data.take n = a.data.take n := by
  rw [String.data_append]
  exact List.take_append_of_le_length h

theorem ne_of_take_ne (s t : String) (n : Nat)
    (h : s.data.take n ≠ t.data.take n) : s ≠ t :=
  fun e => h (by rw [e])

/-- Two strings with distinct constant prefixes differ. -/
theorem appendNe (a r c q : String) (n : Nat) (ha : n ≤ a.data.length)
    (hc : n ≤ c.data.length) (h : a.data.take n ≠ c.data.take n) :
    a ++ r ≠ c ++ q :=
  ne_of_take_ne _ _ n
    (by rw [data_take_append a r n ha, data_take_append c q n hc]; exact h)

/-- A string with a constant prefix differs from a constant it disagrees
with inside the prefix. -/
theorem appendNeConst (a r t : String) (n : Nat) (ha : n ≤ a.data.length)
    (h : a.data.take n ≠ t.data.take n) : a ++ r ≠ t :=
  ne_of_take_ne _ _ n (by rw [data_take_append a r n ha]; exact h)

theorem constNeAppend (t a r : String) (n : Nat) (ha : n ≤ a.data.length)
    (h : t.data.take n ≠ a.data.take n) : t ≠ a ++ r :=
  Ne.symm (appendNeConst a r t n ha (fun e => h e.symm))

theorem findingNeOfIssue {f g : Finding} (h : f.issue ≠ g.issue) : f ≠ g :=
  fun e => h (by rw [e])

theorem mem_seg {c : Bool} {f x : Finding} : x ∈ seg c f ↔ c = true ∧ x = f := by
  cases c <;> simp [seg]

theorem mem_qseg {c : Bool} {s x : String} : x ∈ qseg c s ↔ c = true ∧ x = s := by
  cases c <;> simp [qseg]

theorem length_seg (c : Bool) (f : Finding) : (seg c f).length = if c then 1 else 0 := by
  cases c <;> simp [seg]

theorem length_qseg (c : Bool) (s : String) : (qseg c s).length = if c then 1 else 0 := by
  cases c <;> simp [qseg]

theorem countP_seg (p : Finding → Bool) (c : Bool) (f : Finding) :
    (seg c f).countP p = if c then (if p f then 1 else 0) else 0 := by
  cases c <;> simp [seg, List.countP_cons]

theorem isPrefixOf_self (l : List Char) : l.isPrefixOf l = true := by
  induction l with
  | nil => rfl
  | cons c cs ih => simp [List.isPrefixOf, ih]

theorem strOccurs_self (s : String) : strOccurs s s = true := by
  unfold strOccurs
  cases h : s.data with
  | nil => simp
  | cons c cs => simp [isPrefixOf_self]

theorem replaceListAux_eq_self {pat : List Char} (rep : List Char) :
    ∀ (fuel : Nat) (s : List Char),
      s.tails.any (fun t => pat.isPrefixOf t) = false →
      replaceListAux pat rep fuel s = s := by
  intro fuel
  induction fuel with
  | zero => intro s _; rfl
  | succ n ih =>
    intro s h
    cases s with
    | nil => rfl
    | cons c rest =>
      simp only [List.tails, List.any_cons, Bool.or_eq_false_iff] at h
      rw [replaceListAux]
      rw [if_neg (by simp [h.1])]
      rw [ih rest h.2]

theorem replaceList_eq_self {pat s : List Char} (rep : List Char)
    (h : s.tails.any (fun t => pat.isPrefixOf t) = false) :
    replaceList pat rep s = s :=
  replaceListAux_eq_self rep s.length s h

theorem pyReplace_eq_self {s pat : String} (rep : String)
    (h : strOccurs pat s = false) : pyReplace s pat rep = s := by
  unfold pyReplace
  unfold strOccurs at h
  rw [replaceList_eq_self _ h]

theorem normalizeWebsite_eq {w : String}
    (h : strStartsWith w "http://" = true ∨ strStartsWith w "https://" = true) :
    normalizeWebsite w = w := by
  unfold normalizeWebsite
  rcases h with h | h <;> simp [h]

theorem mem_sortFindings {f : Finding} {l : List Finding}
    (himp : f.impact = "High" ∨ f.impact = "Medium" ∨ f.impact = "Low") :
    f ∈ sortFindings l ↔ f ∈ l := by
  constructor
  · intro h
    simp only [sortFindings, List.mem_append, List.mem_filter, or_assoc] at h
    rcases h with h | h | h <;> exact h.1
  · intro h
    simp only [sortFindings, List.mem_append, List.mem_filter, or_assoc]
    rcases himp with e | e | e
    · exact Or.inl ⟨h, by simp [e]⟩
    · exact Or.inr (Or.inl ⟨h, by simp [e]⟩)
    · exact Or.inr (Or.inr ⟨h, by simp [e]⟩)

theorem filter_sortFindings (l : List Finding) (v : String)
    (hv : v = "High" ∨ v = "Medium" ∨ v = "Low") :
    (sortFindings l).filter (fun f => f.impact == v) =
      l.filter (fun f => f.impact == v) := by
  have hz : ∀ (u : String), u ≠ v →
      (l.filter (fun f => f.impact == u)).filter (fun f => f.impact == v) = [] := by
    intro u hu
    rw [List.filter_eq_nil_iff]
    intro a ha
    rw [List.mem_filter] at ha
    have : a.impact = u := by simpa using ha.2
    simp [this, hu]
  have hs : (l.filter (fun f => f.impact == v)).filter (fun f => f.impact == v) =
      l.filter (fun f => f.impact == v) := by
    rw [List.filter_filter]
    apply List.filter_congr
    intro a _
    simp [Bool.and_self]
  rcases hv with e | e | e <;>
    · subst e
      simp only [sortFindings, List.filter_append]
      rw [hs]
      first
        | (rw [hz "Medium" (by decide), hz "Low" (by decide)]; simp)
        | (rw [hz "High" (by decide), hz "Low" (by decide)]; simp)
        | (rw [hz "High" (by decide), hz "Medium" (by decide)]; simp)


theorem fWww_mem_iff (website bt loc : String) (pg : FetchedPage) (sm rb : ProbeResult) :
    fWww ∈ findingsList website bt loc pg sm rb ↔ wwwCond website pg = true := by
  constructor
  · intro h
    simp only [findingsList, List.mem_append, mem_seg, or_assoc] at h
    rcases h with h|h|h|h|h|h|h|h|h|h|h|h|h|h|h|h|h|h|h|h|h|h|h|h|h|h
    · exact absurd h.2 (by decide)
    · first | exact h | exact h.1
    · exact absurd h.2 (by decide)
    · exact absurd (congrArg Finding.issue h.2) (constNeAppend _ _ _ 2 (by decide) (by decide))
    · exact absurd (congrArg Finding.issue h.2) (constNeAppend _ _ _ 2 (by decide) (by decide))
    · exact absurd h.2 (by decide)
    · exact absurd (congrArg Finding.issue h.2) (constNeAppend _ _ _ 2 (by decide) (by decide))
    · exact absurd (congrArg Finding.issue h.2) (constNeAppend _ _ _ 2 (by decide) (by decide))
    · exact absurd h.2 (by decide)
    · exact absurd (congrArg Finding.issue h.2) (constNeAppend _ _ _ 2 (by decide) (by decide))
    · exact absurd h.2 (by decide)
    · exact absurd h.2 (by decide)
    · exact absurd h.2 (by decide)
    · exact absurd h.2 (by decide)
    · exact absurd (congrArg Finding.issue h.2) (constNeAppend _ _ _ 2 (by decide) (by decide))
    · exact absurd (congrArg Finding.issue h.2) (constNeAppend _ _ _ 2 (by decide) (by decide))
    · exact absurd (congrArg Finding.issue h.2) (constNeAppend _ _ _ 2 (by decide) (by decide))
    · exact absurd (congrArg Finding.issue h.2) (constNeAppend _ _ _ 2 (by decide) (by decide))
    · exact absurd (congrArg Finding.issue h.2) (constNeAppend _ _ _ 2 (by decide) (by decide))
    · exact absurd (congrArg Finding.issue h.2) (constNeAppend _ _ _ 2 (by decide) (by decide))
    · exact absurd h.2 (by decide)
    · exact absurd h.2 (by decide)
    · exact absurd (congrArg Finding.issue h.2)
        (show ¬(("Inconsistent WWW usage" : String) = "Service keywords underutilized") by decide)
    · exact absurd h.2 (by decide)
    · exact absurd h.2 (by decide)
    · exact absurd h.2 (by decide)
  · intro h
    simp only [findingsList, List.mem_append, mem_seg, or_assoc]
    first
      | exact Or.inr (Or.inl h)
      | exact Or.inr (Or.inl ⟨h, rfl⟩)
      | exact Or.inr (Or.inl ⟨h, trivial⟩)

theorem fTitleMissing_mem_iff (website bt loc : String) (pg : FetchedPage) (sm rb : ProbeResult) :
    fTitleMissing ∈ findingsList website bt loc pg sm rb ↔ titleMissing pg = true := by
  constructor
  · intro h
    simp only [findingsList, List.mem_append, mem_seg, or_assoc] at h
    rcases h with h|h|h|h|h|h|h|h|h|h|h|h|h|h|h|h|h|h|h|h|h|h|h|h|h|h
    · exact absurd h.2 (by decide)
    · exact absurd h.2 (by decide)
    · first | exact h | exact h.1
    · exact absurd (congrArg Finding.issue h.2) (constNeAppend _ _ _ 2 (by decide) (by decide))
    · exact absurd (congrArg Finding.issue h.2) (constNeAppend _ _ _ 2 (by decide) (by decide))
    · exact absurd h.2 (by decide)
    · exact absurd (congrArg Finding.issue h.2) (constNeAppend _ _ _ 2 (by decide) (by decide))
    · exact absurd (congrArg Finding.issue h.2) (constNeAppend _ _ _ 2 (by decide) (by decide))
    · exact absurd h.2 (by decide)
    · exact absurd (congrArg Finding.issue h.2) (constNeAppend _ _ _ 2 (by decide) (by decide))
    · exact absurd h.2 (by decide)
    · exact absurd h.2 (by decide)
    · exact absurd h.2 (by decide)
    · exact absurd h.2 (by decide)
    · exact absurd (congrArg Finding.issue h.2) (constNeAppend _ _ _ 2 (by decide) (by decide))
    · exact absurd (congrArg Finding.issue h.2) (constNeAppend _ _ _ 2 (by decide) (by decide))
    · exact absurd (congrArg Finding.issue h.2) (constNeAppend _ _ _ 2 (by decide) (by decide))
    · exact absurd (congrArg Finding.issue h.2) (constNeAppend _ _ _ 2 (by decide) (by decide))
    · exact absurd (congrArg Finding.issue h.2) (constNeAppend _ _ _ 2 (by decide) (by decide))
    · exact absurd (congrArg Finding.issue h.2) (constNeAppend _ _ _ 2 (by decide) (by decide))
    · exact absurd h.2 (by decide)
    · exact absurd h.2 (by decide)
    · exact absurd (congrArg Finding.issue h.2)
        (show ¬(("Missing title tag" : String) = "Service keywords underutilized") by decide)
    · exact absurd h.2 (by decide)
    · exact absurd h.2 (by decide)
    · exact absurd h.2 (by decide)
  · intro h
    simp only [findingsList, List.mem_append, mem_seg, or_assoc]
    first
      | exact Or.inr (Or.inr (Or.inl h))
      | exact Or.inr (Or.inr (Or.inl ⟨h, rfl⟩))
      | exact Or.inr (Or.inr (Or.inl ⟨h, trivial⟩))

theorem fNoPhone_mem_iff (website bt loc : String) (pg : FetchedPage) (sm rb : ProbeResult) :
    fNoPhone ∈ findingsList website bt loc pg sm rb ↔ (!pageHasPhone pg) = true := by
  constructor
  · intro h
    simp only [findingsList, List.mem_append, mem_seg, or_assoc] at h
    rcases h with h|h|h|h|h|h|h|h|h|h|h|h|h|h|h|h|h|h|h|h|h|h|h|h|h|h
    · exact absurd h.2 (by decide)
    · exact absurd h.2 (by decide)
    · exact absurd h.2 (by decide)
    · exact absurd (congrArg Finding.issue h.2) (constNeAppend _ _ _ 2 (by decide) (by decide))
    · exact absurd (congrArg Finding.issue h.2) (constNeAppend _ _ _ 2 (by decide) (by decide))
    · exact absurd h.2 (by decide)
    · exact absurd (congrArg Finding.issue h.2) (constNeAppend _ _ _ 2 (by decide) (by decide))
    · exact absurd (congrArg Finding.issue h.2) (constNeAppend _ _ _ 2 (by decide) (by decide))
    · exact absurd h.2 (by decide)
    · exact absurd (congrArg Finding.issue h.2) (constNeAppend _ _ _ 2 (by decide) (by decide))
    · exact absurd h.2 (by decide)
    · exact absurd h.2 (by decide)
    · exact absurd h.2 (by decide)
    · exact absurd h.2 (by decide)
    · exact absurd (congrArg Finding.issue h.2) (constNeAppend _ _ _ 2 (by decide) (by decide))
    · exact absurd (congrArg Finding.issue h.2) (constNeAppend _ _ _ 2 (by decide) (by decide))
    · exact absurd (congrArg Finding.issue h.2) (constNeAppend _ _ _ 2 (by decide) (by decide))
    · exact absurd (congrArg Finding.issue h.2) (constNeAppend _ _ _ 2 (by decide) (by decide))
    · exact absurd (congrArg Finding.issue h.2) (constNeAppend _ _ _ 2 (by decide) (by decide))
    · exact absurd (congrArg Finding.issue h.2) (constNeAppend _ _ _ 2 (by decide) (by decide))
    · first | exact h | exact h.1
    · exact absurd h.2 (by decide)
    · exact absurd (congrArg Finding.issue h.2)
        (show ¬(("No phone number detected on homepage" : String) = "Service keywords underutilized") by decide)
    · exact absurd h.2 (by decide)
    · exact absurd h.2 (by decide)
    · exact absurd h.2 (by decide)
  · intro h
    simp only [findingsList, List.mem_append, mem_seg, or_assoc]
    first
      | exact Or.inr (Or.inr (Or.inr (Or.inr (Or.inr (Or.inr (Or.inr (Or.inr (Or.inr (Or.inr (Or.inr (Or.inr (Or.inr (Or.inr (Or.inr (Or.inr (Or.inr (Or.inr (Or.inr (Or.inr (Or.inl h))))))))))))))))))))
      | exact Or.inr (Or.inr (Or.inr (Or.inr (Or.inr (Or.inr (Or.inr (Or.inr (Or.inr (Or.inr (Or.inr (Or.inr (Or.inr (Or.inr (Or.inr (Or.inr (Or.inr (Or.inr (Or.inr (Or.inr (Or.inl ⟨h, rfl⟩))))))))))))))))))))
      | exact Or.inr (Or.inr (Or.inr (Or.inr (Or.inr (Or.inr (Or.inr (Or.inr (Or.inr (Or.inr (Or.inr (Or.inr (Or.inr (Or.inr (Or.inr (Or.inr (Or.inr (Or.inr (Or.inr (Or.inr (Or.inl ⟨h, trivial⟩))))))))))))))))))))

theorem fNoSitemap_mem_iff (website bt loc : String) (pg : FetchedPage) (sm rb : ProbeResult) :
    fNoSitemap ∈ findingsList website bt loc pg sm rb ↔ probeNon200 sm = true := by
  constructor
  · intro h
    simp only [findingsList, List.mem_append, mem_seg, or_assoc] at h
    rcases h with h|h|h|h|h|h|h|h|h|h|h|h|h|h|h|h|h|h|h|h|h|h|h|h|h|h
    · exact absurd h.2 (by decide)
    · exact absurd h.2 (by decide)
    · exact absurd h.2 (by decide)
    · exact absurd (congrArg Finding.issue h.2) (constNeAppend _ _ _ 2 (by decide) (by decide))
    · exact absurd (congrArg Finding.issue h.2) (constNeAppend _ _ _ 2 (by decide) (by decide))
    · exact absurd h.2 (by decide)
    · exact absurd (congrArg Finding.issue h.2) (constNeAppend _ _ _ 2 (by decide) (by decide))
    · exact absurd (congrArg Finding.issue h.2) (constNeAppend _ _ _ 2 (by decide) (by decide))
    · exact absurd h.2 (by decide)
    · exact absurd (congrArg Finding.issue h.2) (constNeAppend _ _ _ 2 (by decide) (by decide))
    · exact absurd h.2 (by decide)
    · exact absurd h.2 (by decide)
    · exact absurd h.2 (by decide)
    · exact absurd h.2 (by decide)
    · exact absurd (congrArg Finding.issue h.2) (constNeAppend _ _ _ 2 (by decide) (by decide))
    · exact absurd (congrArg Finding.issue h.2) (constNeAppend _ _ _ 2 (by decide) (by decide))
    · exact absurd (congrArg Finding.issue h.2) (constNeAppend _ _ _ 2 (by decide) (by decide))
    · exact absurd (congrArg Finding.issue h.2) (constNeAppend _ _ _ 2 (by decide) (by decide))
    · exact absurd (congrArg Finding.issue h.2) (constNeAppend _ _ _ 2 (by decide) (by decide))
    · exact absurd (congrArg Finding.issue h.2) (constNeAppend _ _ _ 2 (by decide) (by decide))
    · exact absurd h.2 (by decide)
    · exact absurd h.2 (by decide)
    · exact absurd (congrArg Finding.issue h.2)
        (show ¬(("No sitemap.xml found" : String) = "Service keywords underutilized") by decide)
    · first | exact h | exact h.1
    · exact absurd h.2 (by decide)
    · exact absurd h.2 (by decide)
  · intro h
    simp only [findingsList, List.mem_append, mem_seg, or_assoc]
    first
      | exact Or.inr (Or.inr (Or.inr (Or.inr (Or.inr (Or.inr (Or.inr (Or.inr (Or.inr (Or.inr (Or.inr (Or.inr (Or.inr (Or.inr (Or.inr (Or.inr (Or.inr (Or.inr (Or.inr (Or.inr (Or.inr (Or.inr (Or.inr (Or.inl h)))))))))))))))))))))))
      | exact Or.inr (Or.inr (Or.inr (Or.inr (Or.inr (Or.inr (Or.inr (Or.inr (Or.inr (Or.inr (Or.inr (Or.inr (Or.inr (Or.inr (Or.inr (Or.inr (Or.inr (Or.inr (Or.inr (Or.inr (Or.inr (Or.inr (Or.inr (Or.inl ⟨h, rfl⟩)))))))))))))))))))))))
      | exact Or.inr (Or.inr (Or.inr (Or.inr (Or.inr (Or.inr (Or.inr (Or.inr (Or.inr (Or.inr (Or.inr (Or.inr (Or.inr (Or.inr (Or.inr (Or.inr (Or.inr (Or.inr (Or.inr (Or.inr (Or.inr (Or.inr (Or.inr (Or.inl ⟨h, trivial⟩)))))))))))))))))))))))

theorem fSitemapInaccessible_mem_iff (website bt loc : String) (pg : FetchedPage) (sm rb : ProbeResult) :
    fSitemapInaccessible ∈ findingsList website bt loc pg sm rb ↔ probeExn sm = true := by
  constructor
  · intro h
    simp only [findingsList, List.mem_append, mem_seg, or_assoc] at h
    rcases h with h|h|h|h|h|h|h|h|h|h|h|h|h|h|h|h|h|h|h|h|h|h|h|h|h|h
    · exact absurd h.2 (by decide)
    · exact absurd h.2 (by decide)
    · exact absurd h.2 (by decide)
    · exact absurd (congrArg Finding.issue h.2) (constNeAppend _ _ _ 2 (by decide) (by decide))
    · exact absurd (congrArg Finding.issue h.2) (constNeAppend _ _ _ 2 (by decide) (by decide))
    · exact absurd h.2 (by decide)
    · exact absurd (congrArg Finding.issue h.2) (constNeAppend _ _ _ 2 (by decide) (by decide))
    · exact absurd (congrArg Finding.issue h.2) (constNeAppend _ _ _ 2 (by decide) (by decide))
    · exact absurd h.2 (by decide)
    · exact absurd (congrArg Finding.issue h.2) (constNeAppend _ _ _ 2 (by decide) (by decide))
    · exact absurd h.2 (by decide)
    · exact absurd h.2 (by decide)
    · exact absurd h.2 (by decide)
    · exact absurd h.2 (by decide)
    · exact absurd (congrArg Finding.issue h.2) (constNeAppend _ _ _ 2 (by decide) (by decide))
    · exact absurd (congrArg Finding.issue h.2) (constNeAppend _ _ _ 2 (by decide) (by decide))
    · exact absurd (congrArg Finding.issue h.2) (constNeAppend _ _ _ 2 (by decide) (by decide))
    · exact absurd (congrArg Finding.issue h.2) (constNeAppend _ _ _ 2 (by decide) (by decide))
    · exact absurd (congrArg Finding.issue h.2) (constNeAppend _ _ _ 2 (by decide) (by decide))
    · exact absurd (congrArg Finding.issue h.2) (constNeAppend _ _ _ 2 (by decide) (by decide))
    · exact absurd h.2 (by decide)
    · exact absurd h.2 (by decide)
    · exact absurd (congrArg Finding.issue h.2)
        (show ¬(("sitemap.xml not accessible" : String) = "Service keywords underutilized") by decide)
    · exact absurd h.2 (by decide)
    · first | exact h | exact h.1
    · exact absurd h.2 (by decide)
  · intro h
    simp only [findingsList, List.mem_append, mem_seg, or_assoc]
    first
      | exact Or.inr (Or.inr (Or.inr (Or.inr (Or.inr (Or.inr (Or.inr (Or.inr (Or.inr (Or.inr (Or.inr (Or.inr (Or.inr (Or.inr (Or.inr (Or.inr (Or.inr (Or.inr (Or.inr (Or.inr (Or.inr (Or.inr (Or.inr (Or.inr (Or.inl h))))))))))))))))))))))))
      | exact Or.inr (Or.inr (Or.inr (Or.inr (Or.inr (Or.inr (Or.inr (Or.inr (Or.inr (Or.inr (Or.inr (Or.inr (Or.inr (Or.inr (Or.inr (Or.inr (Or.inr (Or.inr (Or.inr (Or.inr (Or.inr (Or.inr (Or.inr (Or.inr (Or.inl ⟨h, rfl⟩))))))))))))))))))))))))
      | exact Or.inr (Or.inr (Or.inr (Or.inr (Or.inr (Or.inr (Or.inr (Or.inr (Or.inr (Or.inr (Or.inr (Or.inr (Or.inr (Or.inr (Or.inr (Or.inr (Or.inr (Or.inr (Or.inr (Or.inr (Or.inr (Or.inr (Or.inr (Or.inr (Or.inl ⟨h, trivial⟩))))))))))))))))))))))))

theorem fNoRobots_mem_iff (website bt loc : String) (pg : FetchedPage) (sm rb : ProbeResult) :
    fNoRobots ∈ findingsList website bt loc pg sm rb ↔ probeNon200 rb = true := by
  constructor
  · intro h
    simp only [findingsList, List.mem_append, mem_seg, or_assoc] at h
    rcases h with h|h|h|h|h|h|h|h|h|h|h|h|h|h|h|h|h|h|h|h|h|h|h|h|h|h
    · exact absurd h.2 (by decide)
    · exact absurd h.2 (by decide)
    · exact absurd h.2 (by decide)
    · exact absurd (congrArg Finding.issue h.2) (constNeAppend _ _ _ 2 (by decide) (by decide))
    · exact absurd (congrArg Finding.issue h.2) (constNeAppend _ _ _ 2 (by decide) (by decide))
    · exact absurd h.2 (by decide)
    · exact absurd (congrArg Finding.issue h.2) (constNeAppend _ _ _ 2 (by decide) (by decide))
    · exact absurd (congrArg Finding.issue h.2) (constNeAppend _ _ _ 2 (by decide) (by decide))
    · exact absurd h.2 (by decide)
    · exact absurd (congrArg Finding.issue h.2) (constNeAppend _ _ _ 2 (by decide) (by decide))
    · exact absurd h.2 (by decide)
    · exact absurd h.2 (by decide)
    · exact absurd h.2 (by decide)
    · exact absurd h.2 (by decide)
    · exact absurd (congrArg Finding.issue h.2) (constNeAppend _ _ _ 2 (by decide) (by decide))
    · exact absurd (congrArg Finding.issue h.2) (constNeAppend _ _ _ 2 (by decide) (by decide))
    · exact absurd (congrArg Finding.issue h.2) (constNeAppend _ _ _ 2 (by decide) (by decide))
    · exact absurd (congrArg Finding.issue h.2) (constNeAppend _ _ _ 2 (by decide) (by decide))
    · exact absurd (congrArg Finding.issue h.2) (constNeAppend _ _ _ 2 (by decide) (by decide))
    · exact absurd (congrArg Finding.issue h.2) (constNeAppend _ _ _ 2 (by decide) (by decide))
    · exact absurd h.2 (by decide)
    · exact absurd h.2 (by decide)
    · exact absurd (congrArg Finding.issue h.2)
        (show ¬(("No robots.txt found" : String) = "Service keywords underutilized") by decide)
    · exact absurd h.2 (by decide)
    · exact absurd h.2 (by decide)
    · first | exact h | exact h.1
  · intro h
    simp only [findingsList, List.mem_append, mem_seg, or_assoc]
    first
      | exact Or.inr (Or.inr (Or.inr (Or.inr (Or.inr (Or.inr (Or.inr (Or.inr (Or.inr (Or.inr (Or.inr (Or.inr (Or.inr (Or.inr (Or.inr (Or.inr (Or.inr (Or.inr (Or.inr (Or.inr (Or.inr (Or.inr (Or.inr (Or.inr (Or.inr (h)))))))))))))))))))))))))
      | exact Or.inr (Or.inr (Or.inr (Or.inr (Or.inr (Or.inr (Or.inr (Or.inr (Or.inr (Or.inr (Or.inr (Or.inr (Or.inr (Or.inr (Or.inr (Or.inr (Or.inr (Or.inr (Or.inr (Or.inr (Or.inr (Or.inr (Or.inr (Or.inr (Or.inr (⟨h, rfl⟩)))))))))))))))))))))))))
      | exact Or.inr (Or.inr (Or.inr (Or.inr (Or.inr (Or.inr (Or.inr (Or.inr (Or.inr (Or.inr (Or.inr (Or.inr (Or.inr (Or.inr (Or.inr (Or.inr (Or.inr (Or.inr (Or.inr (Or.inr (Or.inr (Or.inr (Or.inr (Or.inr (Or.inr (⟨h, trivial⟩)))))))))))))))))))))))))

theorem mem_quickWinsChecks {x bt loc : String} {pg : FetchedPage} :
    x ∈ quickWinsChecks bt loc pg ↔
      ((!isHttps pg) = true ∧ x = qwSsl) ∨
      (titleMissing pg = true ∧ x = qwTitle bt loc) ∨
      (metaMissing pg = true ∧ x = qwMeta) ∨
      (h1Zero pg = true ∧ x = qwH1 bt loc) ∨
      (noindexCond pg = true ∧ x = qwNoindex) ∨
      (schemaMissing pg = true ∧ x = qwSchema) ∨
      (thinCond pg = true ∧ x = qwThin) ∨
      ((!locationMentioned loc pg) = true ∧ x = qwLoc loc) := by
  simp only [quickWinsChecks, List.mem_append, mem_qseg, or_assoc]

theorem qwLoc_ne_bfLoc (loc : String) : qwLoc loc ≠ bfLoc loc := by
  intro h
  have hl := congrArg String.length h
  rw [qwLoc, bfLoc, String.length_append, String.length_append,
    String.length_append, String.length_append] at hl
  have e1 : ("\x27 to your homepage title and content" : String).length = 36 := by decide
  have e2 : ("\x27 to homepage title and content" : String).length = 31 := by decide
  rw [e1, e2] at hl
  omega

theorem sitemapIssueP_param_false (f : Finding)
    (h1 : f.issue ≠ fNoSitemap.issue) (h2 : f.issue ≠ fSitemapInaccessible.issue) :
    sitemapIssueP f = false := by
  unfold sitemapIssueP
  rw [decide_eq_false (fun e => h1 (by rw [e])),
    decide_eq_false (fun e => h2 (by rw [e]))]
  rfl

theorem robotsIssueP_param_false (f : Finding) (h1 : f.issue ≠ fNoRobots.issue) :
    decide (f = fNoRobots) = false :=
  decide_eq_false (fun e => h1 (by rw [e]))

theorem countP_sitemap (website bt loc : String) (pg : FetchedPage) (sm rb : ProbeResult) :
    (findingsList website bt loc pg sm rb).countP sitemapIssueP =
      (if probeNon200 sm then 1 else 0) + (if probeExn sm then 1 else 0) := by
  have p1 : sitemapIssueP fSsl = false := by decide
  have p2 : sitemapIssueP fWww = false := by decide
  have p3 : sitemapIssueP fTitleMissing = false := by decide
  have p4 : sitemapIssueP fMetaMissing = false := by decide
  have p5 : sitemapIssueP fH1Missing = false := by decide
  have p6 : sitemapIssueP fCanonical = false := by decide
  have p7 : sitemapIssueP fNoindex = false := by decide
  have p8 : sitemapIssueP fOg = false := by decide
  have p9 : sitemapIssueP fSchema = false := by decide
  have p10 : sitemapIssueP fNoPhone = false := by decide
  have p11 : sitemapIssueP fNoGbp = false := by decide
  have p12 : sitemapIssueP fNoRobots = false := by decide
  have p13 : sitemapIssueP fNoSitemap = true := by decide
  have p14 : sitemapIssueP fSitemapInaccessible = true := by decide
  have q1 : sitemapIssueP (fTitleShort (titleLen pg)) = false :=
    sitemapIssueP_param_false _ (appendNeConst _ _ _ 2 (by decide) (by decide))
      (appendNeConst _ _ _ 2 (by decide) (by decide))
  have q2 : sitemapIssueP (fTitleLong (titleLen pg)) = false :=
    sitemapIssueP_param_false _ (appendNeConst _ _ _ 2 (by decide) (by decide))
      (appendNeConst _ _ _ 2 (by decide) (by decide))
  have q3 : sitemapIssueP (fMetaShort (descLen pg)) = false :=
    sitemapIssueP_param_false _ (appendNeConst _ _ _ 2 (by decide) (by decide))
      (appendNeConst _ _ _ 2 (by decide) (by decide))
  have q4 : sitemapIssueP (fMetaLong (descLen pg)) = false :=
    sitemapIssueP_param_false _ (appendNeConst _ _ _ 2 (by decide) (by decide))
      (appendNeConst _ _ _ 2 (by decide) (by decide))
  have q5 : sitemapIssueP (fH1Multi pg.h1Count) = false :=
    sitemapIssueP_param_false _ (appendNeConst _ _ _ 2 (by decide) (by decide))
      (appendNeConst _ _ _ 2 (by decide) (by decide))
  have q6 : sitemapIssueP (fLargePage pg.contentBytes) = false :=
    sitemapIssueP_param_false _ (appendNeConst _ _ _ 2 (by decide) (by decide))
      (appendNeConst _ _ _ 2 (by decide) (by decide))
  have q7 : sitemapIssueP (fSlowLoad pg.loadTime) = false :=
    sitemapIssueP_param_false _ (appendNeConst _ _ _ 2 (by decide) (by decide))
      (appendNeConst _ _ _ 2 (by decide) (by decide))
  have q8 : sitemapIssueP (fFewLinks pg.internalLinkCount) = false :=
    sitemapIssueP_param_false _ (appendNeConst _ _ _ 2 (by decide) (by decide))
      (appendNeConst _ _ _ 2 (by decide) (by decide))
  have q9 : sitemapIssueP (fThin (pageWordCount pg)) = false :=
    sitemapIssueP_param_false _ (appendNeConst _ _ _ 2 (by decide) (by decide))
      (appendNeConst _ _ _ 2 (by decide) (by decide))
  have q10 : sitemapIssueP (fLimited (pageWordCount pg)) = false :=
    sitemapIssueP_param_false _ (appendNeConst _ _ _ 2 (by decide) (by decide))
      (appendNeConst _ _ _ 2 (by decide) (by decide))
  have q11 : sitemapIssueP (fLocation loc) = false :=
    sitemapIssueP_param_false _ (appendNeConst _ _ _ 2 (by decide) (by decide))
      (appendNeConst _ _ _ 2 (by decide) (by decide))
  have q12 : sitemapIssueP (fKeywords bt) = false :=
    sitemapIssueP_param_false _
      (show (("Service keywords underutilized" : String) ≠ "No sitemap.xml found") by decide)
      (show (("Service keywords underutilized" : String) ≠ "sitemap.xml not accessible") by decide)
  simp only [findingsList, List.countP_append, countP_seg, p1, p2, p3, p4, p5, p6,
    p7, p8, p9, p10, p11, p12, p13, p14, q1, q2, q3, q4, q5, q6, q7, q8, q9, q10,
    q11, q12, Bool.false_eq_true, if_false, ite_self, decide_True]
  split_ifs <;> omega

theorem countP_robots (website bt loc : String) (pg : FetchedPage) (sm rb : ProbeResult) :
    (findingsList website bt loc pg sm rb).countP (fun f => decide (f = fNoRobots)) =
      (if probeNon200 rb then 1 else 0) := by
  have p1 : decide (fSsl = fNoRobots) = false := by decide
  have p2 : decide (fWww = fNoRobots) = false := by decide
  have p3 : decide (fTitleMissing = fNoRobots) = false := by decide
  have p4 : decide (fMetaMissing = fNoRobots) = false := by decide
  have p5 : decide (fH1Missing = fNoRobots) = false := by decide
  have p6 : decide (fCanonical = fNoRobots) = false := by decide
  have p7 : decide (fNoindex = fNoRobots) = false := by decide
  have p8 : decide (fOg = fNoRobots) = false := by decide
  have p9 : decide (fSchema = fNoRobots) = false := by decide
  have p10 : decide (fNoPhone = fNoRobots) = false := by decide
  have p11 : decide (fNoGbp = fNoRobots) = false := by decide
  have p12 : decide (fNoSitemap = fNoRobots) = false := by decide
  have p13 : decide (fSitemapInaccessible = fNoRobots) = false := by decide
  have p14 : decide (fNoRobots = fNoRobots) = true := by decide
  have q1 : decide (fTitleShort (titleLen pg) = fNoRobots) = false :=
    robotsIssueP_param_false _ (appendNeConst _ _ _ 2 (by decide) (by decide))
  have q2 : decide (fTitleLong (titleLen pg) = fNoRobots) = false :=
    robotsIssueP_param_false _ (appendNeConst _ _ _ 2 (by decide) (by decide))
  have q3 : decide (fMetaShort (descLen pg) = fNoRobots) = false :=
    robotsIssueP_param_false _ (appendNeConst _ _ _ 2 (by decide) (by decide))
  have q4 : decide (fMetaLong (descLen pg) = fNoRobots) = false :=
    robotsIssueP_param_false _ (appendNeConst _ _ _ 2 (by decide) (by decide))
  have q5 : decide (fH1Multi pg.h1Count = fNoRobots) = false :=
    robotsIssueP_param_false _ (appendNeConst _ _ _ 2 (by decide) (by decide))
  have q6 : decide (fLargePage pg.contentBytes = fNoRobots) = false :=
    robotsIssueP_param_false _ (appendNeConst _ _ _ 2 (by decide) (by decide))
  have q7 : decide (fSlowLoad pg.loadTime = fNoRobots) = false :=
    robotsIssueP_param_false _ (appendNeConst _ _ _ 2 (by decide) (by decide))
  have q8 : decide (fFewLinks pg.internalLinkCount = fNoRobots) = false :=
    robotsIssueP_param_false _ (appendNeConst _ _ _ 2 (by decide) (by decide))
  have q9 : decide (fThin (pageWordCount pg) = fNoRobots) = false :=
    robotsIssueP_param_false _ (appendNeConst _ _ _ 2 (by decide) (by decide))
  have q10 : decide (fLimited (pageWordCount pg) = fNoRobots) = false :=
    robotsIssueP_param_false _ (appendNeConst _ _ _ 2 (by decide) (by decide))
  have q11 : decide (fLocation loc = fNoRobots) = false :=
    robotsIssueP_param_false _ (appendNeConst _ _ _ 2 (by decide) (by decide))
  have q12 : decide (fKeywords bt = fNoRobots) = false :=
    robotsIssueP_param_false _
      (show (("Service keywords underutilized" : String) ≠ "No robots.txt found") by decide)
  simp only [findingsList, List.countP_append, countP_seg, p1, p2, p3, p4, p5, p6,
    p7, p8, p9, p10, p11, p12, p13, p14, q1, q2, q3, q4, q5, q6, q7, q8, q9, q10,
    q11, q12, Bool.false_eq_true, if_false, ite_self, decide_True]
  split_ifs <;> omega

theorem ded_nonneg (c : Bool) {n : Int} (h : 0 ≤ n) : 0 ≤ ded c n := by
  unfold ded
  split
  · exact h
  · exact le_refl 0

theorem technicalRaw_le (website : String) (pg : FetchedPage) (sm rb : ProbeResult) :
    technicalRaw website pg sm rb ≤ 100 := by
  have h1 := ded_nonneg (!isHttps pg) (show (0:Int) ≤ 15 by norm_num)
  have h2 := ded_nonneg (wwwCond website pg) (show (0:Int) ≤ 3 by norm_num)
  have h3 := ded_nonneg (canonicalMissing pg) (show (0:Int) ≤ 8 by norm_num)
  have h4 := ded_nonneg (noindexCond pg) (show (0:Int) ≤ 25 by norm_num)
  have h5 := ded_nonneg (schemaMissing pg) (show (0:Int) ≤ 12 by norm_num)
  have h6 := ded_nonneg (largePageCond pg) (show (0:Int) ≤ 8 by norm_num)
  have h7 := ded_nonneg (slowLoadCond pg) (show (0:Int) ≤ 10 by norm_num)
  have h8 := ded_nonneg (probeNon200 sm) (show (0:Int) ≤ 10 by norm_num)
  have h9 := ded_nonneg (probeExn sm) (show (0:Int) ≤ 10 by norm_num)
  have h10 := ded_nonneg (probeNon200 rb) (show (0:Int) ≤ 5 by norm_num)
  unfold technicalRaw
  omega

theorem onPageRaw_le (pg : FetchedPage) : onPageRaw pg ≤ 100 := by
  have h1 := ded_nonneg (titleMissing pg) (show (0:Int) ≤ 20 by norm_num)
  have h2 := ded_nonneg (titleShortCond pg) (show (0:Int) ≤ 10 by norm_num)
  have h3 := ded_nonneg (titleLongCond pg) (show (0:Int) ≤ 5 by norm_num)
  have h4 := ded_nonneg (metaMissing pg) (show (0:Int) ≤ 10 by norm_num)
  have h5 := ded_nonneg (descShortCond pg) (show (0:Int) ≤ 5 by norm_num)
  have h6 := ded_nonneg (descLongCond pg) (show (0:Int) ≤ 3 by norm_num)
  have h7 := ded_nonneg (h1Zero pg) (show (0:Int) ≤ 15 by norm_num)
  have h8 := ded_nonneg (h1Multi pg) (show (0:Int) ≤ 5 by norm_num)
  have h9 := ded_nonneg (ogFew pg) (show (0:Int) ≤ 5 by norm_num)
  have h10 := ded_nonneg (fewLinksCond pg) (show (0:Int) ≤ 5 by norm_num)
  unfold onPageRaw
  omega

theorem localRaw_le (location : String) (pg : FetchedPage) : localRaw location pg ≤ 100 := by
  have h1 := ded_nonneg (!locationMentioned location pg) (show (0:Int) ≤ 20 by norm_num)
  have h2 := ded_nonneg (!pageHasPhone pg) (show (0:Int) ≤ 15 by norm_num)
  have h3 := ded_nonneg (!hasGbpLink pg) (show (0:Int) ≤ 10 by norm_num)
  unfold localRaw
  omega

theorem contentRaw_le (business_type : String) (pg : FetchedPage) :
    contentRaw business_type pg ≤ 100 := by
  have h1 := ded_nonneg (thinCond pg) (show (0:Int) ≤ 20 by norm_num)
  have h2 := ded_nonneg (limitedCond pg) (show (0:Int) ≤ 10 by norm_num)
  have h3 := ded_nonneg (keywordsUnder business_type pg) (show (0:Int) ≤ 12 by norm_num)
  unfold contentRaw
  omega

/-- C5: in every report returned by run_seo_audit, each of the four scores
(technical, on_page, local, content) lies within [0, 100]: each starts at
100, only loses nonnegative deductions during the run, and is clamped to a
minimum of 0 before output, so no output score is negative or above 100. -/
theorem scores_within_bounds (website bt loc : String) (pg : FetchedPage) (sm rb : ProbeResult) :
    0 ≤ (auditPage website bt loc pg sm rb).scores.technical ∧
    (auditPage website bt loc pg sm rb).scores.technical ≤ 100 ∧
    0 ≤ (auditPage website bt loc pg sm rb).scores.on_page ∧
    (auditPage website bt loc pg sm rb).scores.on_page ≤ 100 ∧
    0 ≤ (auditPage website bt loc pg sm rb).scores.localSeo ∧
    (auditPage website bt loc pg sm rb).scores.localSeo ≤ 100 ∧
    0 ≤ (auditPage website bt loc pg sm rb).scores.content ∧
    (auditPage website bt loc pg sm rb).scores.content ≤ 100 := by
  refine ⟨le_max_left 0 _, max_le (by norm_num) (technicalRaw_le website pg sm rb),
    le_max_left 0 _, max_le (by norm_num) (onPageRaw_le pg),
    le_max_left 0 _, max_le (by norm_num) (localRaw_le loc pg),
    le_max_left 0 _, max_le (by norm_num) (contentRaw_le bt pg)⟩

/-- C2: if the primary page fetch fails, run_seo_audit raises a single
wrapped error ("Failed to fetch website: " plus the underlying message)
and returns no report: the result is never an ok value, so no Finding, no
partial AuditReport and no score output exists for that invocation. -/
theorem fetch_failure_wrapped_error (website bt loc msg : String) (sm rb : ProbeResult) :
    run_seo_audit website bt loc (.failure msg) sm rb =
      .error ("Failed to fetch website: " ++ msg) ∧
    ∀ r : Report, run_seo_audit website bt loc (.failure msg) sm rb ≠ .ok r := by
  refine ⟨rfl, ?_⟩
  intro r h
  exact Except.noConfusion h

/-- Witness for C2 at a concrete timed-out fetch. -/
theorem fetch_failure_wrapped_error_witness :
    run_seo_audit "example.com" "plumber" "Austin" (.failure "timeout") (.ok 200) (.ok 200) =
      .error ("Failed to fetch website: " ++ "timeout") :=
  (fetch_failure_wrapped_error "example.com" "plumber" "Austin" "timeout" (.ok 200) (.ok 200)).1

theorem meanScore_eq_div (sc : ScoreCard) :
    meanScore sc =
      ((sc.technical + sc.on_page + sc.localSeo + sc.content : Int) : ℚ) / 4 := by
  unfold meanScore
  rw [Rat.mkRat_eq_div]
  norm_num

/-- C7: the narrative summary is a four-tier step function of the
unweighted arithmetic mean of the four clamped scores, with inclusive
lower bounds: mean >= 80 selects the Great-job tier, 60 <= mean < 80 the
Good-start tier, 40 <= mean < 60 the quick-fixes tier, mean < 40 the
needs-attention tier; a mean of exactly 80 selects the Great-job tier. -/
theorem summary_tier_boundaries (website bt loc : String) (pg : FetchedPage) (sm rb : ProbeResult) :
    ((auditPage website bt loc pg sm rb).summary = .great ↔
      80 ≤ meanScore (clampedScores website bt loc pg sm rb)) ∧
    ((auditPage website bt loc pg sm rb).summary = .good ↔
      60 ≤ meanScore (clampedScores website bt loc pg sm rb) ∧
      meanScore (clampedScores website bt loc pg sm rb) < 80) ∧
    ((auditPage website bt loc pg sm rb).summary = .quickFixes ↔
      40 ≤ meanScore (clampedScores website bt loc pg sm rb) ∧
      meanScore (clampedScores website bt loc pg sm rb) < 60) ∧
    ((auditPage website bt loc pg sm rb).summary = .needsAttention ↔
      meanScore (clampedScores website bt loc pg sm rb) < 40) ∧
    (meanScore (clampedScores website bt loc pg sm rb) = 80 →
      (auditPage website bt loc pg sm rb).summary = .great) ∧
    meanScore (clampedScores website bt loc pg sm rb) =
      (((clampedScores website bt loc pg sm rb).technical +
        (clampedScores website bt loc pg sm rb).on_page +
        (clampedScores website bt loc pg sm rb).localSeo +
        (clampedScores website bt loc pg sm rb).content : Int) : ℚ) / 4 := by
  have e : (auditPage website bt loc pg sm rb).summary =
      summaryTier (meanScore (clampedScores website bt loc pg sm rb)) := rfl
  rw [e]
  set m := meanScore (clampedScores website bt loc pg sm rb) with hm
  unfold summaryTier
  split_ifs with h1 h2 h3
  · exact ⟨iff_of_true rfl h1,
      iff_of_false (by simp) (fun hx => by linarith [hx.2]),
      iff_of_false (by simp) (fun hx => by linarith [hx.2]),
      iff_of_false (by simp) (by intro hx; linarith),
      fun _ => rfl, meanScore_eq_div _⟩
  · exact ⟨iff_of_false (by simp) h1,
      iff_of_true rfl ⟨h2, not_le.mp h1⟩,
      iff_of_false (by simp) (fun hx => by linarith [hx.2]),
      iff_of_false (by simp) (by intro hx; linarith),
      fun he => absurd he.ge h1, meanScore_eq_div _⟩
  · exact ⟨iff_of_false (by simp) h1,
      iff_of_false (by simp) (fun hx => absurd hx.1 h2),
      iff_of_true rfl ⟨h3, not_le.mp h2⟩,
      iff_of_false (by simp) (by intro hx; linarith),
      fun he => absurd he.ge h1, meanScore_eq_div _⟩
  · exact ⟨iff_of_false (by simp) h1,
      iff_of_false (by simp) (fun hx => absurd hx.1 h2),
      iff_of_false (by simp) (fun hx => absurd hx.1 h3),
      iff_of_true rfl (not_le.mp h3),
      fun he => absurd he.ge h1, meanScore_eq_div _⟩

/-- Witness for C7: a concrete page whose clamped-score mean is 89.5,
selecting the Great-job tier. -/
theorem summary_tier_boundaries_witness :
    (auditPage "https://example.com" "plumber" "Austin" pageA (.ok 200) (.ok 200)).summary =
      .great :=
  ((summary_tier_boundaries "https://example.com" "plumber" "Austin" pageA
    (.ok 200) (.ok 200)).1).mpr (by decide)

/-- C6: the 30-day plan of every report has exactly 4 entries: entry 1 joins
with "; " the descriptions of up to the first 2 High-impact findings
(canned Google Business Profile task when no High finding exists), entry 2
likewise for the first 2 Medium-impact findings (canned local-citations
task when none), and entries 3 and 4 are the two fixed canned tasks
whatever the findings are.  Because the output sort is stable within each
impact tier, the first High/Medium findings of the report are exactly the
first ones the checks appended. -/
theorem plan_structure (website bt loc : String) (pg : FetchedPage) (sm rb : ProbeResult) :
    (auditPage website bt loc pg sm rb).thirty_day_plan =
      [ (if ((auditPage website bt loc pg sm rb).findings.filter
              (fun f => f.impact == "High")).isEmpty then week1Canned
         else weekEntry "Week 1: "
           ((auditPage website bt loc pg sm rb).findings.filter
             (fun f => f.impact == "High"))),
        (if ((auditPage website bt loc pg sm rb).findings.filter
              (fun f => f.impact == "Medium")).isEmpty then week2Canned
         else weekEntry "Week 2: "
           ((auditPage website bt loc pg sm rb).findings.filter
             (fun f => f.impact == "Medium"))),
        week3Task bt loc,
        week4Task ] ∧
    (auditPage website bt loc pg sm rb).thirty_day_plan.length = 4 := by
  have e : (auditPage website bt loc pg sm rb).findings =
      sortFindings (findingsList website bt loc pg sm rb) := rfl
  have eh := filter_sortFindings (findingsList website bt loc pg sm rb) "High" (Or.inl rfl)
  have em := filter_sortFindings (findingsList website bt loc pg sm rb) "Medium"
    (Or.inr (Or.inl rfl))
  constructor
  · rw [e, eh, em]
    rfl
  · rfl

/-- C3: auxiliary probes never abort the audit.  A sitemap.xml probe that
returns non-200 or raises adds exactly one Technical finding carrying a
10-point deduction; a robots.txt probe returning non-200 adds exactly one
Low-impact Technical finding with a 5-point deduction; a robots.txt
transport exception adds no finding and no deduction; and with the primary
fetch successful run_seo_audit returns an ok report whatever the probes
did. -/
theorem aux_probe_tolerance (website bt loc : String) (pg : FetchedPage) (sm rb : ProbeResult) :
    ((probeNon200 sm || probeExn sm) = true →
      (findingsList (normalizeWebsite website) bt loc pg sm rb).countP sitemapIssueP = 1 ∧
      ded (probeNon200 sm) 10 + ded (probeExn sm) 10 = 10) ∧
    (∀ f : Finding, sitemapIssueP f = true → f.category = "Technical") ∧
    (run_seo_audit website bt loc (.success pg) sm rb =
      .ok (auditPage (normalizeWebsite website) bt loc pg sm rb)) ∧
    (probeNon200 rb = true →
      (findingsList (normalizeWebsite website) bt loc pg sm rb).countP
        (fun f => decide (f = fNoRobots)) = 1 ∧
      fNoRobots ∈ (auditPage (normalizeWebsite website) bt loc pg sm rb).findings ∧
      fNoRobots.category = "Technical" ∧ fNoRobots.impact = "Low" ∧
      ded (probeNon200 rb) 5 = 5) ∧
    (probeExn rb = true →
      fNoRobots ∉ (auditPage (normalizeWebsite website) bt loc pg sm rb).findings ∧
      ded (probeNon200 rb) 5 = 0) := by
  have efind : (auditPage (normalizeWebsite website) bt loc pg sm rb).findings =
      sortFindings (findingsList (normalizeWebsite website) bt loc pg sm rb) := rfl
  refine ⟨?_, ?_, rfl, ?_, ?_⟩
  · intro h
    rw [countP_sitemap]
    cases sm with
    | ok s =>
      simp only [probeNon200, probeExn, Bool.or_false] at h ⊢
      simp [h, ded]
    | exn =>
      simp [ded, probeNon200, probeExn]
  · intro f hf
    unfold sitemapIssueP at hf
    rcases Bool.or_eq_true_iff.mp hf with hf | hf
    · rw [of_decide_eq_true hf]
      rfl
    · rw [of_decide_eq_true hf]
      rfl
  · intro h
    refine ⟨?_, ?_, rfl, rfl, by simp [ded, h]⟩
    · rw [countP_robots]
      simp [h]
    · rw [efind, mem_sortFindings (Or.inr (Or.inr rfl)), fNoRobots_mem_iff]
      exact h
  · intro h
    have h2 : probeNon200 rb = false := by
      cases rb with
      | ok s => simp [probeExn] at h
      | exn => rfl
    constructor
    · intro hmem
      rw [efind, mem_sortFindings (Or.inr (Or.inr rfl)), fNoRobots_mem_iff] at hmem
      rw [h2] at hmem
      exact Bool.noConfusion hmem
    · simp [ded, h2]

/-- Witness for C3: a 404 sitemap probe and a robots transport exception
at a concrete page. -/
theorem aux_probe_tolerance_witness :
    (findingsList (normalizeWebsite "https://foo.com") "plumber" "Austin" pageB
      (.ok 404) .exn).countP sitemapIssueP = 1 ∧
    fNoRobots ∉ (auditPage (normalizeWebsite "https://foo.com") "plumber" "Austin" pageB
      (.ok 404) .exn).findings :=
  ⟨((aux_probe_tolerance "https://foo.com" "plumber" "Austin" pageB (.ok 404) .exn).1
      (by decide)).1,
   ((aux_probe_tolerance "https://foo.com" "plumber" "Austin" pageB (.ok 404) .exn).2.2.2.2
      (by decide)).1⟩

/-- C8 (amended): the No-phone-number Local SEO finding (impact Medium,
deduction 15) is produced iff the raw page text has no match of the source
pattern: optional open paren, 3 digits, optional close paren, optional
separator (dash, dot or whitespace), 3 digits, another INDEPENDENTLY
optional separator, 4 digits.  (The two separators need not be equal.) -/
theorem phone_finding_iff (website bt loc : String) (pg : FetchedPage) (sm rb : ProbeResult) :
    (fNoPhone ∈ (auditPage website bt loc pg sm rb).findings ↔
      hasPhone pg.htmlText = false) ∧
    fNoPhone.impact = "Medium" ∧ fNoPhone.category = "Local SEO" ∧
    (hasPhone pg.htmlText = false → ded (!pageHasPhone pg) 15 = 15) := by
  have e : (auditPage website bt loc pg sm rb).findings =
      sortFindings (findingsList website bt loc pg sm rb) := rfl
  refine ⟨?_, rfl, rfl, ?_⟩
  · rw [e, mem_sortFindings (Or.inr (Or.inl rfl)), fNoPhone_mem_iff]
    unfold pageHasPhone
    cases hasPhone pg.htmlText <;> simp
  · intro h
    have : pageHasPhone pg = false := h
    simp [ded, this]

/-- Counterexample to C8 as stated: on raw text 123-456.7890 the source
regex matches (mixed separators), so the engine emits no phone finding,
while the claim-worded same-separator pattern has no match anywhere, so
the claim predicts the finding. -/
theorem phone_claim_counterexample :
    claimHasPhone "123-456.7890" = false ∧
    hasPhone "123-456.7890" = true ∧
    fNoPhone ∉ (auditPage "https://example.com" "shop" "Austin" pageC
      (.ok 200) (.ok 200)).findings := by
  refine ⟨by decide, by decide, by decide⟩

/-- Witness for C8 (amended) at a page whose text is empty. -/
theorem phone_finding_iff_witness :
    fNoPhone ∈ (auditPage "https://www.foo.com" "plumber" "Austin" pageB
      (.ok 200) (.ok 200)).findings :=
  ((phone_finding_iff "https://www.foo.com" "plumber" "Austin" pageB
      (.ok 200) (.ok 200)).1).mpr (by decide)

/-- C9: the Inconsistent-WWW Technical finding (impact Low, deduction 3)
is appended iff the resolved network location starts with www. and the
input URL with its www. occurrences removed is a substring of the input
URL — the literal near-tautological source condition; the second conjunct
holds vacuously whenever the input contains no www., and the finding never
appears when the resolved host does not start with www..  (The hypothesis
pins the input to an absolute URL, the AuditInput form of the spec, so the
scheme normalization of the engine leaves it unchanged.) -/
theorem www_condition_literal (website bt loc : String) (pg : FetchedPage) (sm rb : ProbeResult)
    (hscheme : strStartsWith website "http://" = true ∨
      strStartsWith website "https://" = true) :
    (fWww ∈ (auditPage (normalizeWebsite website) bt loc pg sm rb).findings ↔
      (strStartsWith pg.netloc "www." = true ∧
       strOccurs (pyReplace website "www." "") website = true)) ∧
    (strOccurs "www." website = false →
      strOccurs (pyReplace website "www." "") website = true) ∧
    (strStartsWith pg.netloc "www." = false →
      fWww ∉ (auditPage (normalizeWebsite website) bt loc pg sm rb).findings) ∧
    normalizeWebsite website = website := by
  have hn := normalizeWebsite_eq hscheme
  have e : (auditPage (normalizeWebsite website) bt loc pg sm rb).findings =
      sortFindings (findingsList (normalizeWebsite website) bt loc pg sm rb) := rfl
  have hiff : fWww ∈ (auditPage (normalizeWebsite website) bt loc pg sm rb).findings ↔
      (strStartsWith pg.netloc "www." = true ∧
       strOccurs (pyReplace website "www." "") website = true) := by
    rw [e, mem_sortFindings (Or.inr (Or.inr rfl)), fWww_mem_iff, hn]
    unfold wwwCond
    exact iff_of_eq (Bool.and_eq_true _ _)
  refine ⟨hiff, ?_, ?_, hn⟩
  · intro h
    rw [pyReplace_eq_self _ h]
    exact strOccurs_self website
  · intro h hmem
    have := (hiff.mp hmem).1
    rw [h] at this
    exact Bool.noConfusion this

/-- Witness for C9: an input URL without www. resolving onto the www
host triggers the finding. -/
theorem www_condition_literal_witness :
    fWww ∈ (auditPage (normalizeWebsite "https://foo.com") "plumber" "Austin" pageB
      (.ok 200) (.ok 200)).findings :=
  ((www_condition_literal "https://foo.com" "plumber" "Austin" pageB (.ok 200) (.ok 200)
      (Or.inr (by decide))).1).mpr ⟨by decide, by decide⟩

/-- C10: the Missing-title-tag High finding is produced iff the document
has no title element or the element has no (or an empty) direct string;
a title string that is non-empty but all whitespace instead yields the
Medium finding Title tag too short (0 chars), never the missing-title
finding.  (An all-whitespace string is one whose Python strip is empty.) -/
theorem title_finding_classification (website bt loc : String) (pg : FetchedPage)
    (sm rb : ProbeResult) :
    (fTitleMissing ∈ (auditPage website bt loc pg sm rb).findings ↔
      titleMissing pg = true) ∧
    (∀ s : String, pg.titleTag = some (some s) → s.isEmpty = false → strTrim s = "" →
      fTitleShort 0 ∈ (auditPage website bt loc pg sm rb).findings ∧
      fTitleMissing ∉ (auditPage website bt loc pg sm rb).findings) ∧
    fTitleMissing.impact = "High" ∧ (fTitleShort 0).impact = "Medium" := by
  have e : (auditPage website bt loc pg sm rb).findings =
      sortFindings (findingsList website bt loc pg sm rb) := rfl
  have hiff : fTitleMissing ∈ (auditPage website bt loc pg sm rb).findings ↔
      titleMissing pg = true := by
    rw [e, mem_sortFindings (Or.inl rfl), fTitleMissing_mem_iff]
  refine ⟨hiff, ?_, rfl, rfl⟩
  intro s hs hne htrim
  have hm : titleMissing pg = false := by
    unfold titleMissing
    rw [hs]
    exact hne
  have hlen : titleLen pg = 0 := by
    unfold titleLen
    rw [hs]
    show (strTrim s).length = 0
    rw [htrim]
    rfl
  have hcond : titleShortCond pg = true := by
    unfold titleShortCond
    rw [hm, hlen]
    rfl
  constructor
  · rw [e, mem_sortFindings (Or.inr (Or.inl rfl))]
    have e2 : fTitleShort (titleLen pg) = fTitleShort 0 := by rw [hlen]
    rw [← e2]
    simp only [findingsList, List.mem_append, mem_seg, or_assoc]
    first
      | exact Or.inr (Or.inr (Or.inr (Or.inl ⟨hcond, rfl⟩)))
      | exact Or.inr (Or.inr (Or.inr (Or.inl ⟨hcond, trivial⟩)))
  · intro hmem
    have := hiff.mp hmem
    rw [hm] at this
    exact Bool.noConfusion this

/-- Witness for C10 at a page whose title string is three blanks. -/
theorem title_finding_classification_witness :
    fTitleShort 0 ∈ (auditPage "https://example.com" "plumber" "Austin" pageD
      (.ok 200) (.ok 200)).findings ∧
    fTitleMissing ∉ (auditPage "https://example.com" "plumber" "Austin" pageD
      (.ok 200) (.ok 200)).findings :=
  (title_finding_classification "https://example.com" "plumber" "Austin" pageD
    (.ok 200) (.ok 200)).2.1 "   " rfl (by decide) (by decide)

theorem isPrefix_take_mono {A : Type} {l m : List A} (n : Nat) (h : l <+: m) :
    l.take n <+: m.take n := by
  obtain ⟨t, rfl⟩ := h
  rw [List.take_append_eq_append_take]
  exact ⟨_, rfl⟩

theorem checks_isPrefix_withBackfill (bt loc : String) (pg : FetchedPage) :
    quickWinsChecks bt loc pg <+: quickWinsWithBackfill bt loc pg := by
  unfold quickWinsWithBackfill
  split
  · exact ⟨_, rfl⟩
  · exact List.prefix_refl _

theorem withBackfill_length_ge (bt loc : String) (pg : FetchedPage) :
    (quickWinsChecks bt loc pg).length ≤ (quickWinsWithBackfill bt loc pg).length := by
  unfold quickWinsWithBackfill
  split
  · simp
  · exact le_refl _

theorem qw_source (x bt loc : String) (pg : FetchedPage)
    (hx : x ∈ quickWinsWithBackfill bt loc pg) :
    x ∈ quickWinsChecks bt loc pg ∨ x = bfLoc loc ∨ x = bfWords ∨ x = bfPhone := by
  unfold quickWinsWithBackfill at hx
  split at hx
  · rcases List.mem_append.mp hx with h | h
    · exact Or.inl h
    · simp only [List.mem_append, mem_qseg, or_assoc] at h
      rcases h with h | h | h
      · exact Or.inr (Or.inl h.2)
      · exact Or.inr (Or.inr (Or.inl h.2))
      · exact Or.inr (Or.inr (Or.inr h.2))
  · exact Or.inl hx


/-- C1 (amended): the EIGHT checks with an unconditional quick-win append
site - 1 (HTTPS), 3 (missing title), 6 (missing meta description), 9 (no
H1), 12 (noindex), 14 (no structured data), 18 (thin content, under 300
words), 19 (location absent) - each contribute their canned phrase when
triggered, in catalogue order at the front of the list, capped at 5;
quick_wins never exceeds 5 entries and is at least min(5, number of
triggered canonical checks); and each canned phrase appears only when
its check triggered.  (The original claim named only five checks and
asserted no other check contributes; checks 6, 14 and 18 also do.) -/
theorem quick_wins_catalogue (website bt loc : String) (pg : FetchedPage) (sm rb : ProbeResult) :
    (auditPage website bt loc pg sm rb).quick_wins.length ≤ 5 ∧
    min 5 (quickWinsChecks bt loc pg).length ≤
      (auditPage website bt loc pg sm rb).quick_wins.length ∧
    (quickWinsChecks bt loc pg).take 5 <+: (auditPage website bt loc pg sm rb).quick_wins ∧
    (qwSsl ∈ (auditPage website bt loc pg sm rb).quick_wins → (!isHttps pg) = true) ∧
    (qwTitle bt loc ∈ (auditPage website bt loc pg sm rb).quick_wins → titleMissing pg = true) ∧
    (qwMeta ∈ (auditPage website bt loc pg sm rb).quick_wins → metaMissing pg = true) ∧
    (qwH1 bt loc ∈ (auditPage website bt loc pg sm rb).quick_wins → h1Zero pg = true) ∧
    (qwNoindex ∈ (auditPage website bt loc pg sm rb).quick_wins → noindexCond pg = true) ∧
    (qwSchema ∈ (auditPage website bt loc pg sm rb).quick_wins → schemaMissing pg = true) ∧
    (qwThin ∈ (auditPage website bt loc pg sm rb).quick_wins → thinCond pg = true) ∧
    (qwLoc loc ∈ (auditPage website bt loc pg sm rb).quick_wins → (!locationMentioned loc pg) = true) := by
  have eq1 : (auditPage website bt loc pg sm rb).quick_wins =
      (quickWinsWithBackfill bt loc pg).take 5 := rfl
  have hlen : (auditPage website bt loc pg sm rb).quick_wins.length =
      min 5 (quickWinsWithBackfill bt loc pg).length := by
    rw [eq1]; exact List.length_take _ _
  have hge := withBackfill_length_ge bt loc pg
  refine ⟨by omega, by omega, ?_, ?_, ?_, ?_, ?_, ?_, ?_, ?_, ?_⟩
  · rw [eq1]
    exact isPrefix_take_mono 5 (checks_isPrefix_withBackfill bt loc pg)
  · intro hx
    rw [eq1] at hx
    rcases qw_source _ bt loc pg (List.mem_of_mem_take hx) with h | he | he | he
    · rcases mem_quickWinsChecks.mp h with ⟨hc, he⟩|⟨hc, he⟩|⟨hc, he⟩|⟨hc, he⟩|⟨hc, he⟩|⟨hc, he⟩|⟨hc, he⟩|⟨hc, he⟩
      · exact hc
      · exact absurd he (constNeAppend _ _ _ 5 (by decide) (by decide))
      · exact absurd he (by decide)
      · exact absurd he (constNeAppend _ _ _ 5 (by decide) (by decide))
      · exact absurd he (by decide)
      · exact absurd he (by decide)
      · exact absurd he (by decide)
      · exact absurd he (constNeAppend _ _ _ 5 (by decide) (by decide))
    · exact absurd he (constNeAppend _ _ _ 5 (by decide) (by decide))
    · exact absurd he (by decide)
    · exact absurd he (by decide)
  · intro hx
    rw [eq1] at hx
    rcases qw_source _ bt loc pg (List.mem_of_mem_take hx) with h | he | he | he
    · rcases mem_quickWinsChecks.mp h with ⟨hc, he⟩|⟨hc, he⟩|⟨hc, he⟩|⟨hc, he⟩|⟨hc, he⟩|⟨hc, he⟩|⟨hc, he⟩|⟨hc, he⟩
      · exact absurd he (appendNeConst _ _ _ 5 (by decide) (by decide))
      · exact hc
      · exact absurd he (appendNeConst _ _ _ 5 (by decide) (by decide))
      · exact absurd he (appendNe _ _ _ _ 5 (by decide) (by decide) (by decide))
      · exact absurd he (appendNeConst _ _ _ 5 (by decide) (by decide))
      · exact absurd he (appendNeConst _ _ _ 5 (by decide) (by decide))
      · exact absurd he (appendNeConst _ _ _ 5 (by decide) (by decide))
      · exact absurd he (appendNe _ _ _ _ 5 (by decide) (by decide) (by decide))
    · exact absurd he (appendNe _ _ _ _ 5 (by decide) (by decide) (by decide))
    · exact absurd he (appendNeConst _ _ _ 5 (by decide) (by decide))
    · exact absurd he (appendNeConst _ _ _ 5 (by decide) (by decide))
  · intro hx
    rw [eq1] at hx
    rcases qw_source _ bt loc pg (List.mem_of_mem_take hx) with h | he | he | he
    · rcases mem_quickWinsChecks.mp h with ⟨hc, he⟩|⟨hc, he⟩|⟨hc, he⟩|⟨hc, he⟩|⟨hc, he⟩|⟨hc, he⟩|⟨hc, he⟩|⟨hc, he⟩
      · exact absurd he (by decide)
      · exact absurd he (constNeAppend _ _ _ 5 (by decide) (by decide))
      · exact hc
      · exact absurd he (constNeAppend _ _ _ 5 (by decide) (by decide))
      · exact absurd he (by decide)
      · exact absurd he (by decide)
      · exact absurd he (by decide)
      · exact absurd he (constNeAppend _ _ _ 5 (by decide) (by decide))
    · exact absurd he (constNeAppend _ _ _ 5 (by decide) (by decide))
    · exact absurd he (by decide)
    · exact absurd he (by decide)
  · intro hx
    rw [eq1] at hx
    rcases qw_source _ bt loc pg (List.mem_of_mem_take hx) with h | he | he | he
    · rcases mem_quickWinsChecks.mp h with ⟨hc, he⟩|⟨hc, he⟩|⟨hc, he⟩|⟨hc, he⟩|⟨hc, he⟩|⟨hc, he⟩|⟨hc, he⟩|⟨hc, he⟩
      · exact absurd he (appendNeConst _ _ _ 5 (by decide) (by decide))
      · exact absurd he (appendNe _ _ _ _ 5 (by decide) (by decide) (by decide))
      · exact absurd he (appendNeConst _ _ _ 5 (by decide) (by decide))
      · exact hc
      · exact absurd he (appendNeConst _ _ _ 5 (by decide) (by decide))
      · exact absurd he (appendNeConst _ _ _ 5 (by decide) (by decide))
      · exact absurd he (appendNeConst _ _ _ 5 (by decide) (by decide))
      · exact absurd he (appendNe _ _ _ _ 5 (by decide) (by decide) (by decide))
    · exact absurd he (appendNe _ _ _ _ 5 (by decide) (by decide) (by decide))
    · exact absurd he (appendNeConst _ _ _ 5 (by decide) (by decide))
    · exact absurd he (appendNeConst _ _ _ 5 (by decide) (by decide))
  · intro hx
    rw [eq1] at hx
    rcases qw_source _ bt loc pg (List.mem_of_mem_take hx) with h | he | he | he
    · rcases mem_quickWinsChecks.mp h with ⟨hc, he⟩|⟨hc, he⟩|⟨hc, he⟩|⟨hc, he⟩|⟨hc, he⟩|⟨hc, he⟩|⟨hc, he⟩|⟨hc, he⟩
      · exact absurd he (by decide)
      · exact absurd he (constNeAppend _ _ _ 5 (by decide) (by decide))
      · exact absurd he (by decide)
      · exact absurd he (constNeAppend _ _ _ 5 (by decide) (by decide))
      · exact hc
      · exact absurd he (by decide)
      · exact absurd he (by decide)
      · exact absurd he (constNeAppend _ _ _ 5 (by decide) (by decide))
    · exact absurd he (constNeAppend _ _ _ 5 (by decide) (by decide))
    · exact absurd he (by decide)
    · exact absurd he (by decide)
  · intro hx
    rw [eq1] at hx
    rcases qw_source _ bt loc pg (List.mem_of_mem_take hx) with h | he | he | he
    · rcases mem_quickWinsChecks.mp h with ⟨hc, he⟩|⟨hc, he⟩|⟨hc, he⟩|⟨hc, he⟩|⟨hc, he⟩|⟨hc, he⟩|⟨hc, he⟩|⟨hc, he⟩
      · exact absurd he (by decide)
      · exact absurd he (constNeAppend _ _ _ 5 (by decide) (by decide))
      · exact absurd he (by decide)
      · exact absurd he (constNeAppend _ _ _ 5 (by decide) (by decide))
      · exact absurd he (by decide)
      · exact hc
      · exact absurd he (by decide)
      · exact absurd he (constNeAppend _ _ _ 5 (by decide) (by decide))
    · exact absurd he (constNeAppend _ _ _ 5 (by decide) (by decide))
    · exact absurd he (by decide)
    · exact absurd he (by decide)
  · intro hx
    rw [eq1] at hx
    rcases qw_source _ bt loc pg (List.mem_of_mem_take hx) with h | he | he | he
    · rcases mem_quickWinsChecks.mp h with ⟨hc, he⟩|⟨hc, he⟩|⟨hc, he⟩|⟨hc, he⟩|⟨hc, he⟩|⟨hc, he⟩|⟨hc, he⟩|⟨hc, he⟩
      · exact absurd he (by decide)
      · exact absurd he (constNeAppend _ _ _ 5 (by decide) (by decide))
      · exact absurd he (by decide)
      · exact absurd he (constNeAppend _ _ _ 5 (by decide) (by decide))
      · exact absurd he (by decide)
      · exact absurd he (by decide)
      · exact hc
      · exact absurd he (constNeAppend _ _ _ 5 (by decide) (by decide))
    · exact absurd he (constNeAppend _ _ _ 5 (by decide) (by decide))
    · exact absurd he (by decide)
    · exact absurd he (by decide)
  · intro hx
    rw [eq1] at hx
    rcases qw_source _ bt loc pg (List.mem_of_mem_take hx) with h | he | he | he
    · rcases mem_quickWinsChecks.mp h with ⟨hc, he⟩|⟨hc, he⟩|⟨hc, he⟩|⟨hc, he⟩|⟨hc, he⟩|⟨hc, he⟩|⟨hc, he⟩|⟨hc, he⟩
      · exact absurd he (appendNeConst _ _ _ 5 (by decide) (by decide))
      · exact absurd he (appendNe _ _ _ _ 5 (by decide) (by decide) (by decide))
      · exact absurd he (appendNeConst _ _ _ 5 (by decide) (by decide))
      · exact absurd he (appendNe _ _ _ _ 5 (by decide) (by decide) (by decide))
      · exact absurd he (appendNeConst _ _ _ 5 (by decide) (by decide))
      · exact absurd he (appendNeConst _ _ _ 5 (by decide) (by decide))
      · exact absurd he (appendNeConst _ _ _ 5 (by decide) (by decide))
      · exact hc
    · exact absurd he (qwLoc_ne_bfLoc loc)
    · exact absurd he (appendNeConst _ _ _ 5 (by decide) (by decide))
    · exact absurd he (appendNeConst _ _ _ 5 (by decide) (by decide))


/-- Counterexample to C1 as stated: on a page whose only canonical-check
defect is the missing meta description (plus thin text), none of the five
checks the claim names triggers, yet the check-6 canned phrase - which is
none of the five phrases those checks would add - appears in quick_wins:
another check adds an always-included quick-win phrase. -/
theorem quick_wins_extra_producer :
    qwMeta ∈ (auditPage "https://example.com" "plumber" "Austin" pageA
      (.ok 200) (.ok 200)).quick_wins ∧
    qwMeta ∉ [qwSsl, qwTitle "plumber" "Austin", qwH1 "plumber" "Austin",
      qwNoindex, qwLoc "Austin"] ∧
    (!isHttps pageA) = false ∧ titleMissing pageA = false ∧ h1Zero pageA = false ∧
    noindexCond pageA = false ∧ (!locationMentioned "Austin" pageA) = false := by
  refine ⟨by decide, by decide, by decide, by decide, by decide, by decide, by decide⟩

/-- Witness for C1 (amended): the meta-description phrase in the output
implies its check triggered, at a concrete page. -/
theorem quick_wins_catalogue_witness :
    metaMissing pageA = true ∧
    (auditPage "https://example.com" "plumber" "Austin" pageA
      (.ok 200) (.ok 200)).quick_wins.length ≤ 5 :=
  ⟨(quick_wins_catalogue "https://example.com" "plumber" "Austin" pageA
      (.ok 200) (.ok 200)).2.2.2.2.2.1 (by decide),
   (quick_wins_catalogue "https://example.com" "plumber" "Austin" pageA
      (.ok 200) (.ok 200)).1⟩


/-- C4: whenever fewer than 3 quick wins accumulated after the checks,
the engine backfills in the fixed order location mention, content length,
phone number - each entry appended exactly when its condition holds, and
the appended suggestion is never already present in the list - and the
final output still holds at most 5 entries. -/
theorem quick_wins_backfill (website bt loc : String) (pg : FetchedPage) (sm rb : ProbeResult)
    (h : (quickWinsChecks bt loc pg).length < 3) :
    (auditPage website bt loc pg sm rb).quick_wins =
      quickWinsChecks bt loc pg ++
      (qseg (!locationMentioned loc pg) (bfLoc loc) ++
       qseg (pageWordCount pg < 500) bfWords ++
       qseg (!pageHasPhone pg) bfPhone) ∧
    bfLoc loc ∉ quickWinsChecks bt loc pg ∧
    bfWords ∉ quickWinsChecks bt loc pg ++ qseg (!locationMentioned loc pg) (bfLoc loc) ∧
    bfPhone ∉ quickWinsChecks bt loc pg ++
      (qseg (!locationMentioned loc pg) (bfLoc loc) ++ qseg (pageWordCount pg < 500) bfWords) ∧
    (auditPage website bt loc pg sm rb).quick_wins.length ≤ 5 := by
  have hwb : quickWinsWithBackfill bt loc pg =
      quickWinsChecks bt loc pg ++
      (qseg (!locationMentioned loc pg) (bfLoc loc) ++
       qseg (pageWordCount pg < 500) bfWords ++
       qseg (!pageHasPhone pg) bfPhone) := by
    unfold quickWinsWithBackfill
    rw [if_pos h]
  have hl1 := length_qseg (!locationMentioned loc pg) (bfLoc loc)
  have hl2 := length_qseg (pageWordCount pg < 500) bfWords
  have hl3 := length_qseg (!pageHasPhone pg) bfPhone
  have hwblen : (quickWinsWithBackfill bt loc pg).length ≤ 5 := by
    rw [hwb]
    simp only [List.length_append]
    split_ifs at hl1 hl2 hl3 <;> omega
  have eq1 : (auditPage website bt loc pg sm rb).quick_wins =
      (quickWinsWithBackfill bt loc pg).take 5 := rfl
  refine ⟨?_, ?_, ?_, ?_, ?_⟩
  · rw [eq1, List.take_of_length_le hwblen, hwb]
  · intro hm
    rcases mem_quickWinsChecks.mp hm with ⟨hc, he⟩|⟨hc, he⟩|⟨hc, he⟩|⟨hc, he⟩|⟨hc, he⟩|⟨hc, he⟩|⟨hc, he⟩|⟨hc, he⟩
    · exact absurd he (appendNeConst _ _ _ 5 (by decide) (by decide))
    · exact absurd he (appendNe _ _ _ _ 5 (by decide) (by decide) (by decide))
    · exact absurd he (appendNeConst _ _ _ 5 (by decide) (by decide))
    · exact absurd he (appendNe _ _ _ _ 5 (by decide) (by decide) (by decide))
    · exact absurd he (appendNeConst _ _ _ 5 (by decide) (by decide))
    · exact absurd he (appendNeConst _ _ _ 5 (by decide) (by decide))
    · exact absurd he (appendNeConst _ _ _ 5 (by decide) (by decide))
    · exact (qwLoc_ne_bfLoc loc) he.symm
  · intro hm
    rcases List.mem_append.mp hm with hm2 | hm2
    · rcases mem_quickWinsChecks.mp hm2 with ⟨hc, he⟩|⟨hc, he⟩|⟨hc, he⟩|⟨hc, he⟩|⟨hc, he⟩|⟨hc, he⟩|⟨hc, he⟩|⟨hc, he⟩
      · exact absurd he (by decide)
      · exact absurd he (constNeAppend _ _ _ 5 (by decide) (by decide))
      · exact absurd he (by decide)
      · exact absurd he (constNeAppend _ _ _ 5 (by decide) (by decide))
      · exact absurd he (by decide)
      · exact absurd he (by decide)
      · exact absurd he (by decide)
      · exact absurd he (constNeAppend _ _ _ 5 (by decide) (by decide))
    · have he := (mem_qseg.mp hm2).2
      exact absurd he (constNeAppend _ _ _ 5 (by decide) (by decide))
  · intro hm
    rcases List.mem_append.mp hm with hm2 | hm2
    · rcases mem_quickWinsChecks.mp hm2 with ⟨hc, he⟩|⟨hc, he⟩|⟨hc, he⟩|⟨hc, he⟩|⟨hc, he⟩|⟨hc, he⟩|⟨hc, he⟩|⟨hc, he⟩
      · exact absurd he (by decide)
      · exact absurd he (constNeAppend _ _ _ 5 (by decide) (by decide))
      · exact absurd he (by decide)
      · exact absurd he (constNeAppend _ _ _ 5 (by decide) (by decide))
      · exact absurd he (by decide)
      · exact absurd he (by decide)
      · exact absurd he (by decide)
      · exact absurd he (constNeAppend _ _ _ 5 (by decide) (by decide))
    · rcases List.mem_append.mp hm2 with hm3 | hm3
      · have he := (mem_qseg.mp hm3).2
        exact absurd he (constNeAppend _ _ _ 5 (by decide) (by decide))
      · have he := (mem_qseg.mp hm3).2
        exact absurd he (by decide)
  · rw [eq1]
    have := List.length_take 5 (quickWinsWithBackfill bt loc pg)
    omega

/-- Witness for C4 at a page accumulating two canonical quick wins. -/
theorem quick_wins_backfill_witness :
    (quickWinsChecks "plumber" "Austin" pageA).length < 3 ∧
    (auditPage "https://example.com" "plumber" "Austin" pageA (.ok 200) (.ok 200)).quick_wins =
      quickWinsChecks "plumber" "Austin" pageA ++
      (qseg (!locationMentioned "Austin" pageA) (bfLoc "Austin") ++
       qseg (pageWordCount pageA < 500) bfWords ++
       qseg (!pageHasPhone pageA) bfPhone) :=
  ⟨by decide,
   (quick_wins_backfill "https://example.com" "plumber" "Austin" pageA
     (.ok 200) (.ok 200) (by decide)).1⟩
